import Mathlib

/-!
Verification development for the `mcp-atlassian` server: a shallow embedding
of its normalization and addressing layer (`confluence.py`, `jira.py`,
`server.py`) together with proofs about the embedded operations.

Python strings are modelled as `List Char`; Python exceptions as an explicit
error type threaded through `Except`; backend clients (the `atlassian`
library), the text preprocessor and `datetime` are external collaborators and
are modelled at their interface (oracle parameters, or for `fromisoformat`
a parser restricted to the grammar the code feeds it).
-/

set_option maxHeartbeats 1600000

namespace Mcp

/-- Python strings modelled as lists of characters. -/
abbrev Str := List Char

/-! ## String primitives (Python `in`, `str.replace`, `str.split`) -/

/-- Does `s` start with `pat`?  The prefix test underlying Python's
substring scan. -/
def startsWith : Str → Str → Bool
  | [], _ => true
  | _ :: _, [] => false
  | p :: ps, c :: cs => p == c && startsWith ps cs

/-- Python substring test `pat in s`. -/
def containsSub : Str → Str → Bool
  | [], pat => startsWith pat []
  | c :: cs, pat => startsWith pat (c :: cs) || containsSub cs pat

/-- Structural worker for `pyReplace`; the fuel is an upper bound on the
length of the string still to scan. -/
def pyReplaceAux : Nat → Str → Str → Str → Str
  | 0, s, _, _ => s
  | _ + 1, [], _, _ => []
  | fuel + 1, c :: cs, pat, rep =>
    if pat ≠ [] ∧ startsWith pat (c :: cs) = true then
      rep ++ pyReplaceAux fuel ((c :: cs).drop pat.length) pat rep
    else
      c :: pyReplaceAux fuel cs pat rep

/-- Python `s.replace(pat, rep)`: replace every non-overlapping occurrence of
`pat`, scanning left to right.  (For an empty `pat` — never used by the
modelled code — this leaves `s` unchanged, unlike Python.) -/
def pyReplace (s pat rep : Str) : Str := pyReplaceAux s.length s pat rep

/-- Python `s.split(sep)` for a single-character separator. -/
def splitOnChar (sep : Char) : Str → List Str
  | [] => [[]]
  | c :: cs =>
    if c = sep then [] :: splitOnChar sep cs
    else
      match splitOnChar sep cs with
      | [] => [[c]]
      | r :: rs => (c :: r) :: rs

/-- Python `sep.join(parts)` for a single-character separator. -/
def joinSeg (sep : Char) : List Str → Str
  | [] => []
  | [p] => p
  | p :: q :: rest => p ++ sep :: joinSeg sep (q :: rest)

/-- Python `sep.join(parts)` for a string separator. -/
def joinStr (sep : Str) : List Str → Str
  | [] => []
  | [p] => p
  | p :: q :: rest => p ++ sep ++ joinStr sep (q :: rest)

/-- Python `s[-n]` (n-th character from the end), total with a dummy default. -/
def charFromEnd (s : Str) (n : Nat) : Char :=
  (s.drop (s.length - n)).headD ' '

/-- Python `s[-n:]` (last `n` characters). -/
def lastN (s : Str) (n : Nat) : Str :=
  s.drop (s.length - n)

/-! ## Basic lemmas about the string primitives -/

theorem startsWith_mem {pat s : Str} (h : startsWith pat s = true) :
    ∀ c ∈ pat, c ∈ s := by
  induction pat generalizing s with
  | nil => intro c hc; exact absurd hc (List.not_mem_nil c)
  | cons p ps ih =>
    cases s with
    | nil => exact absurd h (by simp [startsWith])
    | cons x xs =>
      simp only [startsWith, Bool.and_eq_true, beq_iff_eq] at h
      intro c hc
      rcases List.mem_cons.mp hc with hcp | hcs
      · subst hcp; rw [h.1]; exact List.mem_cons_self x xs
      · exact List.mem_cons_of_mem x (ih h.2 c hcs)

theorem startsWith_false_of_mem_not_mem {pat s : Str} {x : Char}
    (hx : x ∈ pat) (hs : x ∉ s) : startsWith pat s = false := by
  cases h : startsWith pat s
  · rfl
  · exact absurd (startsWith_mem h x hx) hs

theorem startsWith_append_self (pat t : Str) :
    startsWith pat (pat ++ t) = true := by
  induction pat with
  | nil => rfl
  | cons p ps ih => simp [startsWith, ih]

theorem pyReplaceAux_adequate :
    ∀ (fuel : Nat) (s pat rep : Str), s.length ≤ fuel →
      pyReplaceAux fuel s pat rep = pyReplaceAux s.length s pat rep := by
  intro fuel
  induction fuel using Nat.strong_induction_on with
  | _ fuel ih =>
    intro s pat rep hle
    match fuel, s with
    | 0, s =>
      have : s = [] := List.length_eq_zero.mp (Nat.le_zero.mp hle)
      subst this
      rfl
    | fuel + 1, [] => rfl
    | fuel + 1, c :: cs =>
      have hcs : cs.length ≤ fuel := by
        simp only [List.length_cons] at hle
        omega
      show (if pat ≠ [] ∧ startsWith pat (c :: cs) = true then
              rep ++ pyReplaceAux fuel ((c :: cs).drop pat.length) pat rep
            else c :: pyReplaceAux fuel cs pat rep)
          = (if pat ≠ [] ∧ startsWith pat (c :: cs) = true then
              rep ++ pyReplaceAux cs.length ((c :: cs).drop pat.length) pat rep
            else c :: pyReplaceAux cs.length cs pat rep)
      by_cases hcond : pat ≠ [] ∧ startsWith pat (c :: cs) = true
      · rw [if_pos hcond, if_pos hcond]
        have hplen : 0 < pat.length := List.length_pos.mpr hcond.1
        have hdlen : ((c :: cs).drop pat.length).length ≤ cs.length := by
          simp only [List.length_drop, List.length_cons]
          omega
        rw [ih fuel (Nat.lt_succ_self fuel) _ pat rep (le_trans hdlen hcs),
          ih cs.length (Nat.lt_succ_of_le hcs) _ pat rep hdlen]
      · rw [if_neg hcond, if_neg hcond,
          ih fuel (Nat.lt_succ_self fuel) cs pat rep hcs,
          ih cs.length (Nat.lt_succ_of_le hcs) cs pat rep (le_refl _)]

theorem pyReplace_nil (pat rep : Str) : pyReplace [] pat rep = [] := rfl

theorem pyReplace_pos {pat : Str} {c : Char} {cs : Str} (hp : pat ≠ [])
    (h : startsWith pat (c :: cs) = true) (rep : Str) :
    pyReplace (c :: cs) pat rep
      = rep ++ pyReplace ((c :: cs).drop pat.length) pat rep := by
  show pyReplaceAux (cs.length + 1) (c :: cs) pat rep = _
  rw [pyReplaceAux, if_pos ⟨hp, h⟩]
  have hplen : 0 < pat.length := List.length_pos.mpr hp
  have hdlen : ((c :: cs).drop pat.length).length ≤ cs.length := by
    simp only [List.length_drop, List.length_cons]
    omega
  rw [pyReplaceAux_adequate cs.length _ pat rep hdlen]
  rfl

theorem pyReplace_neg {pat : Str} {c : Char} {cs : Str}
    (h : startsWith pat (c :: cs) = false) (rep : Str) :
    pyReplace (c :: cs) pat rep = c :: pyReplace cs pat rep := by
  show pyReplaceAux (cs.length + 1) (c :: cs) pat rep = _
  rw [pyReplaceAux, if_neg]
  · rfl
  · rintro ⟨-, hs⟩
    rw [h] at hs
    exact Bool.noConfusion hs

theorem pyReplace_id_of_not_mem {pat s rep : Str} {x : Char}
    (hx : x ∈ pat) (hs : x ∉ s) : pyReplace s pat rep = s := by
  induction s with
  | nil => exact pyReplace_nil pat rep
  | cons c cs ih =>
    rw [pyReplace_neg (startsWith_false_of_mem_not_mem hx hs) rep, ih]
    intro hmem
    exact hs (List.mem_cons_of_mem c hmem)

theorem pyReplace_strip_scheme {pat rest rep : Str} {x : Char} (hp : pat ≠ [])
    (hx : x ∈ pat) (hrest : x ∉ rest) :
    pyReplace (pat ++ rest) pat rep = rep ++ rest := by
  cases pat with
  | nil => exact absurd rfl hp
  | cons p ps =>
    rw [List.cons_append, pyReplace_pos hp
      (by rw [← List.cons_append]; exact startsWith_append_self (p :: ps) rest) rep]
    rw [← List.cons_append, List.drop_left]
    rw [pyReplace_id_of_not_mem hx hrest]

theorem splitOnChar_ne_nil (sep : Char) (s : Str) : splitOnChar sep s ≠ [] := by
  cases s with
  | nil => simp [splitOnChar]
  | cons c cs =>
    rw [splitOnChar]
    by_cases h : c = sep
    · simp [h]
    · simp only [if_neg h]
      cases splitOnChar sep cs with
      | nil => simp
      | cons r rs => simp

theorem splitOnChar_sep_free {sep : Char} {s : Str} (h : sep ∉ s) :
    splitOnChar sep s = [s] := by
  induction s with
  | nil => rfl
  | cons c cs ih =>
    rw [splitOnChar]
    have hc : ¬ c = sep := fun he => h (he ▸ List.mem_cons_self c cs)
    rw [if_neg hc, ih (fun hm => h (List.mem_cons_of_mem c hm))]

theorem splitOnChar_append_sep {sep : Char} {p : Str} (t : Str) (h : sep ∉ p) :
    splitOnChar sep (p ++ sep :: t) = p :: splitOnChar sep t := by
  induction p with
  | nil => simp [splitOnChar]
  | cons c cs ih =>
    have hc : ¬ c = sep := fun he => h (he ▸ List.mem_cons_self c cs)
    rw [List.cons_append, splitOnChar, if_neg hc,
      ih (fun hm => h (List.mem_cons_of_mem c hm))]

theorem splitOnChar_joinSeg {sep : Char} {parts : List Str} (hne : parts ≠ [])
    (hsep : ∀ p ∈ parts, sep ∉ p) :
    splitOnChar sep (joinSeg sep parts) = parts := by
  induction parts with
  | nil => exact absurd rfl hne
  | cons p rest ih =>
    cases rest with
    | nil =>
      rw [joinSeg]
      exact splitOnChar_sep_free (hsep p (List.mem_cons_self p []))
    | cons q rest' =>
      rw [joinSeg, splitOnChar_append_sep _ (hsep p (List.mem_cons_self p _))]
      rw [ih (by simp) (fun r hr => hsep r (List.mem_cons_of_mem p hr))]

theorem mem_joinSeg {sep : Char} {parts : List Str} {x : Char}
    (h : x ∈ joinSeg sep parts) : x = sep ∨ ∃ p ∈ parts, x ∈ p := by
  induction parts with
  | nil => exact absurd h (List.not_mem_nil x)
  | cons p rest ih =>
    cases rest with
    | nil =>
      rw [joinSeg] at h
      exact Or.inr ⟨p, List.mem_cons_self p [], h⟩
    | cons q rest' =>
      rw [joinSeg] at h
      rcases List.mem_append.mp h with hp | hrest
      · exact Or.inr ⟨p, List.mem_cons_self p _, hp⟩
      · rcases List.mem_cons.mp hrest with hx | hj
        · exact Or.inl hx
        · rcases ih hj with hs | ⟨r, hr, hxr⟩
          · exact Or.inl hs
          · exact Or.inr ⟨r, List.mem_cons_of_mem p hr, hxr⟩

/-! ## Digit characters and two/four digit numerals -/

theorem isDigit_toNat {c : Char} (h : c.isDigit = true) :
    48 ≤ c.toNat ∧ c.toNat ≤ 57 := by
  simp [Char.isDigit] at h
  exact h

theorem beq_false_of_notdigit {x c : Char} (hx : x.isDigit = false)
    (hc : c.isDigit = true) : (x == c) = false := by
  cases he : x == c
  · rfl
  · rw [beq_iff_eq] at he
    subst he
    rw [hc] at hx
    exact Bool.noConfusion hx

theorem ne_of_digit {c : Char} (x : Char) (hx : x.isDigit = false)
    (hc : c.isDigit = true) : ¬ c = x := by
  intro he
  subst he
  rw [hc] at hx
  exact Bool.noConfusion hx

/-- Numeric value of a digit character (Python `int` of one char). -/
def dnat (c : Char) : Nat := c.toNat - 48

/-- The digit character of a value `< 10`. -/
def digitChar (n : Nat) : Char := Char.ofNat (48 + n)

theorem dnat_lt {c : Char} (h : c.isDigit = true) : dnat c < 10 := by
  have := isDigit_toNat h
  unfold dnat
  omega

theorem digitChar_dnat {c : Char} (h : c.isDigit = true) :
    digitChar (dnat c) = c := by
  have hb := (isDigit_toNat h).1
  unfold digitChar dnat
  rw [Nat.add_sub_cancel' hb]
  exact Char.ofNat_toNat c

/-- Two-digit numeral value, e.g. of a month/day/hour field. -/
def toNum2 (a b : Char) : Nat := dnat a * 10 + dnat b

/-- Four-digit numeral value (year field). -/
def toNum4 (a b c d : Char) : Nat :=
  ((dnat a * 10 + dnat b) * 10 + dnat c) * 10 + dnat d

/-- Zero-padded two-digit rendering (`strftime` `%m`, `%d`). -/
def pad2 (n : Nat) : Str := [digitChar (n / 10), digitChar (n % 10)]

/-- Zero-padded four-digit rendering (`strftime` `%Y`, as documented by
Python for years `0001`–`9999`). -/
def pad4 (n : Nat) : Str :=
  [digitChar (n / 1000), digitChar (n / 100 % 10),
   digitChar (n / 10 % 10), digitChar (n % 10)]

theorem pad2_toNum2 {a b : Char} (ha : a.isDigit = true)
    (hb : b.isDigit = true) : pad2 (toNum2 a b) = [a, b] := by
  have hbl := dnat_lt hb
  unfold pad2 toNum2
  have h1 : (dnat a * 10 + dnat b) / 10 = dnat a := by omega
  have h2 : (dnat a * 10 + dnat b) % 10 = dnat b := by omega
  rw [h1, h2, digitChar_dnat ha, digitChar_dnat hb]

theorem pad4_toNum4 {a b c d : Char} (ha : a.isDigit = true)
    (hb : b.isDigit = true) (hc : c.isDigit = true) (hd : d.isDigit = true) :
    pad4 (toNum4 a b c d) = [a, b, c, d] := by
  have hal := dnat_lt ha
  have hbl := dnat_lt hb
  have hcl := dnat_lt hc
  have hdl := dnat_lt hd
  unfold pad4 toNum4
  have h1 : (((dnat a * 10 + dnat b) * 10 + dnat c) * 10 + dnat d) / 1000
      = dnat a := by omega
  have h2 : (((dnat a * 10 + dnat b) * 10 + dnat c) * 10 + dnat d) / 100 % 10
      = dnat b := by omega
  have h3 : (((dnat a * 10 + dnat b) * 10 + dnat c) * 10 + dnat d) / 10 % 10
      = dnat c := by omega
  have h4 : (((dnat a * 10 + dnat b) * 10 + dnat c) * 10 + dnat d) % 10
      = dnat d := by omega
  rw [h1, h2, h3, h4, digitChar_dnat ha, digitChar_dnat hb,
    digitChar_dnat hc, digitChar_dnat hd]

/-! ## Python error and value model -/

/-- The Python exceptions distinguished by the modelled code. -/
inductive PyErr where
  | valueError (msg : Str)
  | keyError (key : Str)
  | attributeError (msg : Str)
  | runtimeError (msg : Str)
  | backend (msg : Str)
deriving DecidableEq

/-- Python `str(e)` on an exception. -/
def PyErr.msg : PyErr → Str
  | .valueError m => m
  | .keyError m => m
  | .attributeError m => m
  | .runtimeError m => m
  | .backend m => m

/-- Shorthand for the character list of a literal. -/
def strLit (s : String) : Str := s.data

/-- A metadata value: string, number or Python `None`. -/
inductive MVal where
  | s (v : Str)
  | n (v : Nat)
  | null
deriving DecidableEq

/-- The uniform `Document` record (document_types.py): a content string plus
a string-keyed metadata mapping, modelled as an association list. -/
structure Document where
  page_content : Str
  metadata : List (Str × MVal)
deriving DecidableEq

/-- Python `d[k]` on a metadata dict: the value, or a raised `KeyError`. -/
def getItem (m : List (Str × MVal)) (k : Str) : Except PyErr MVal :=
  match m.lookup k with
  | some v => .ok v
  | none => .error (.keyError k)

/-! ## Confluence content normalizer (confluence.py) -/

/-- A Confluence page payload, with the fields `get_page_by_title` /
`get_space_pages` read: `page["id"]`, `page["title"]`,
`page["body"]["storage"]["value"]`, `page.get("version", {}).get("number")`. -/
structure ConfluencePage where
  id : Str
  title : Str
  body_storage_value : Str
  version_number : Option Nat
deriving DecidableEq

/-- `ConfluenceFetcher` defines `_process_html_content` but no method named
`_clean_html_content`; evaluating `self._clean_html_content` therefore raises
`AttributeError`.  The calls in `get_page_by_title` (line 98) and
`get_space_pages` (line 126) are modelled as this always-raising function. -/
def clean_html_content (_content : Str) : Except PyErr Str :=
  .error (.attributeError (strLit "ConfluenceFetcher object has no attribute _clean_html_content"))

/-- The page URL built by the Confluence normalizer. -/
def confluencePageUrl (url space_key page_id : Str) : Str :=
  url ++ strLit "/wiki/spaces/" ++ space_key ++ strLit "/pages/" ++ page_id

/-- `MVal` of `page.get("version", {}).get("number")`. -/
def versionVal : Option Nat → MVal
  | some n => .n n
  | none => .null

/-- The `try:` body of `ConfluenceFetcher.get_page_by_title`
(confluence.py lines 90-108).  `backend` is the result of the
`confluence.get_page_by_title` call: `.error` when it raises, `.ok none`
when it reports no match. -/
def get_page_by_title_body (url space_key : Str)
    (backend : Except PyErr (Option ConfluencePage)) (clean_html : Bool) :
    Except PyErr (Option Document) :=
  match backend with
  | .error e => .error e
  | .ok none => .ok none
  | .ok (some page) => do
    let content ← if clean_html then clean_html_content page.body_storage_value
                  else pure page.body_storage_value
    .ok (some
      { page_content := content
        metadata :=
          [(strLit "page_id", .s page.id),
           (strLit "title", .s page.title),
           (strLit "version", versionVal page.version_number),
           (strLit "space_key", .s space_key),
           (strLit "url", .s (confluencePageUrl url space_key page.id))] })

/-- `ConfluenceFetcher.get_page_by_title` (confluence.py lines 88-112):
the whole body runs under `try/except Exception`, which logs and returns
`None` on any raised error. -/
def get_page_by_title (url space_key : Str)
    (backend : Except PyErr (Option ConfluencePage)) (clean_html : Bool) :
    Option Document :=
  match get_page_by_title_body url space_key backend clean_html with
  | .ok r => r
  | .error _ => none

/-- `ConfluenceFetcher.get_space_pages` (confluence.py lines 114-138).
`backend` is the result of `confluence.get_all_pages_from_space`; there is
no `try/except`, so any raised error propagates to the caller. -/
def get_space_pages (url space_key : Str)
    (backend : Except PyErr (List ConfluencePage)) (clean_html : Bool) :
    Except PyErr (List Document) := do
  let pages ← backend
  pages.mapM (fun page => do
    let content ← if clean_html then clean_html_content page.body_storage_value
                  else pure page.body_storage_value
    pure
      { page_content := content
        metadata :=
          [(strLit "page_id", .s page.id),
           (strLit "title", .s page.title),
           (strLit "space_key", .s space_key),
           (strLit "version", versionVal page.version_number),
           (strLit "url", .s (confluencePageUrl url space_key page.id))] })

/-- One CQL search hit content object: `result.get("content", {})` with
`content.get("type")` and `content["id"]`. -/
structure CqlContent where
  type_ : Option Str
  id : Str
deriving DecidableEq

/-- One CQL search hit (`confluence.cql` result entry). -/
structure CqlResult where
  content : Option CqlContent
  title : Str
  url : Str
  containerTitle : Option Str
  lastModified : Option Str
  excerpt : Option Str
deriving DecidableEq

/-- The CQL response: `results.get("results", [])`. -/
structure CqlResponse where
  results : List CqlResult
deriving DecidableEq

/-- `MVal` of an optional string metadata entry. -/
def optVal : Option Str → MVal
  | some v => .s v
  | none => .null

/-- `ConfluenceFetcher.search` (confluence.py lines 174-198).  `backend` is
the result of the `confluence.cql` call; the `try/except` converts any
raised error into `[]`.  Hits whose content type is not `"page"` are
dropped. -/
def search (url : Str) (backend : Except PyErr CqlResponse) : List Document :=
  match backend with
  | .error _ => []
  | .ok resp =>
    resp.results.filterMap (fun result =>
      match result.content with
      | none => none
      | some content =>
        if content.type_ = some (strLit "page") then
          some
            { page_content := result.excerpt.getD []
              metadata :=
                [(strLit "page_id", .s content.id),
                 (strLit "title", .s result.title),
                 (strLit "space", optVal result.containerTitle),
                 (strLit "url", .s (url ++ result.url)),
                 (strLit "last_modified", optVal result.lastModified),
                 (strLit "type", .s (strLit "page"))] }
        else none)

/-! ## Jira date parsing (jira.py `_parse_date`, lines 51-71) -/

def plus0000 : Str := ['+', '0', '0', '0', '0']

def minus0000 : Str := ['-', '0', '0', '0', '0']

def plusColon00 : Str := ['+', '0', '0', ':', '0', '0']

def zStr : Str := ['Z']

/-- The timezone-normalization cascade of `_parse_date`: rewrite `+0000` /
`-0000` to `+00:00`, else insert a colon into a trailing 4-digit offset. -/
def fixTimezone (date_str : Str) : Str :=
  if containsSub date_str plus0000 then pyReplace date_str plus0000 plusColon00
  else if containsSub date_str minus0000 then pyReplace date_str minus0000 plusColon00
  else if 5 ≤ date_str.length
      ∧ (charFromEnd date_str 5 = '+' ∨ charFromEnd date_str 5 = '-')
      ∧ (lastN date_str 4).all Char.isDigit then
    date_str.take (date_str.length - 2) ++ ':' :: lastN date_str 2
  else date_str

/-- A parsed datetime value (the fields `strftime` reads, plus the offset). -/
structure DT where
  year : Nat
  month : Nat
  day : Nat
  hour : Nat
  minute : Nat
  second : Nat
  tz : Option (Bool × Nat × Nat)
deriving DecidableEq

def isLeap (y : Nat) : Bool := y % 4 == 0 && (y % 100 != 0 || y % 400 == 0)

def daysInMonth (y mo : Nat) : Nat :=
  if mo = 2 then (if isLeap y then 29 else 28)
  else if mo = 4 ∨ mo = 6 ∨ mo = 9 ∨ mo = 11 then 30
  else 31

/-- Offset tail accepted by `fromisoformat`: empty, or `±HH:MM` within a
day's range. -/
def parseTzTail : Str → Option (Option (Bool × Nat × Nat))
  | [] => some none
  | [sg, o1, o2, ':', o3, o4] =>
    if (sg = '+' ∨ sg = '-') ∧ o1.isDigit ∧ o2.isDigit ∧ o3.isDigit ∧ o4.isDigit
        ∧ toNum2 o1 o2 ≤ 23 ∧ toNum2 o3 o4 ≤ 59 then
      some (some (sg == '+', toNum2 o1 o2, toNum2 o3 o4))
    else none
  | _ => none

/-- Model of Python `datetime.fromisoformat` (external `datetime` library),
restricted to the grammar `_parse_date` feeds it: a full
`YYYY-MM-DDTHH:MM:SS` timestamp (separator `T` or space), optionally
followed by a `±HH:MM` offset.  Field ranges are checked as `datetime` does;
`none` models the raised `ValueError`. -/
def fromisoformat (s : Str) : Option DT :=
  match s with
  | y1 :: y2 :: y3 :: y4 :: '-' :: m1 :: m2 :: '-' :: d1 :: d2 :: sep ::
      h1 :: h2 :: ':' :: n1 :: n2 :: ':' :: s1 :: s2 :: rest =>
    if y1.isDigit ∧ y2.isDigit ∧ y3.isDigit ∧ y4.isDigit
        ∧ m1.isDigit ∧ m2.isDigit ∧ d1.isDigit ∧ d2.isDigit
        ∧ h1.isDigit ∧ h2.isDigit ∧ n1.isDigit ∧ n2.isDigit
        ∧ s1.isDigit ∧ s2.isDigit ∧ (sep = 'T' ∨ sep = ' ') then
      match parseTzTail rest with
      | none => none
      | some tz =>
        if 1 ≤ toNum4 y1 y2 y3 y4
            ∧ 1 ≤ toNum2 m1 m2 ∧ toNum2 m1 m2 ≤ 12
            ∧ 1 ≤ toNum2 d1 d2
            ∧ toNum2 d1 d2 ≤ daysInMonth (toNum4 y1 y2 y3 y4) (toNum2 m1 m2)
            ∧ toNum2 h1 h2 ≤ 23 ∧ toNum2 n1 n2 ≤ 59 ∧ toNum2 s1 s2 ≤ 59 then
          some ⟨toNum4 y1 y2 y3 y4, toNum2 m1 m2, toNum2 d1 d2,
                toNum2 h1 h2, toNum2 n1 n2, toNum2 s1 s2, tz⟩
        else none
    else none
  | _ => none

/-- `date.strftime("%Y-%m-%d")`: the local (as-written) date fields,
zero-padded — no timezone conversion is performed. -/
def strftimeYmd (dt : DT) : Str :=
  pad4 dt.year ++ '-' :: pad2 dt.month ++ '-' :: pad2 dt.day

/-- `JiraFetcher._parse_date` (jira.py lines 51-71).  Note that on a parse
failure the `except` branch returns the *current* `date_str`, i.e. the
timezone-normalized string, not the caller's original argument. -/
def parse_date (date_str : Str) : Str :=
  if date_str = [] then []
  else
    match fromisoformat (pyReplace (fixTimezone date_str) zStr plusColon00) with
    | some dt => strftimeYmd dt
    | none => fixTimezone date_str

/-! ## Jira issue normalizer (jira.py) -/

/-- `link["type"]` of an issue link: `.get('inward', 'Unknown')`. -/
structure JiraLinkType where
  inward : Option Str
deriving DecidableEq

/-- `link["inwardIssue"]`: `.get('key', 'UNKNOWN')`. -/
structure JiraInwardIssue where
  key : Option Str
deriving DecidableEq

/-- One entry of `fields["issuelinks"]`; both sub-objects are `.get`-ed with
`{}` defaults. -/
structure JiraIssueLink where
  type_ : Option JiraLinkType
  inwardIssue : Option JiraInwardIssue
deriving DecidableEq

/-- One entry of `fields["comment"]["comments"]`. -/
structure JiraComment where
  body : Str
  created : Str
  author_displayName : Option Str
deriving DecidableEq

/-- The `issue["fields"]` payload, with exactly the fields `get_issue`
reads; `Option` marks `.get`-style accesses, plain fields `["..."]`
accesses. -/
structure JiraFields where
  description : Option Str
  comment : Option (List JiraComment)
  created : Str
  summary : Option Str
  issuetype_name : Str
  status_name : Str
  priority_name : Option Str
  issuelinks : List JiraIssueLink
deriving DecidableEq

/-- A Jira issue payload. -/
structure JiraIssue where
  fields : JiraFields
deriving DecidableEq

/-- `JiraFetcher._clean_text` (jira.py lines 40-49): empty or missing text
maps to `""`, otherwise the external preprocessor (`cleanJiraText` oracle)
is applied. -/
def clean_text (cleanJiraText : Str → Str) : Option Str → Str
  | none => []
  | some t => if t = [] then [] else cleanJiraText t

/-- `link.get('type', {}).get('inward', 'Unknown')`. -/
def linkLabel (link : JiraIssueLink) : Str :=
  (link.type_.bind JiraLinkType.inward).getD (strLit "Unknown")

/-- `link.get('inwardIssue', {}).get('key', 'UNKNOWN')`. -/
def linkKey (link : JiraIssueLink) : Str :=
  (link.inwardIssue.bind JiraInwardIssue.key).getD (strLit "UNKNOWN")

/-- One step of the `defaultdict(list)` grouping: append `k` to the group
labelled `l`, creating the group at the end on first encounter (Python
dicts preserve insertion order). -/
def insertGrouped : List (Str × List Str) → Str → Str → List (Str × List Str)
  | [], l, k => [(l, [k])]
  | (lab, ks) :: rest, l, k =>
    if lab = l then (lab, ks ++ [k]) :: rest
    else (lab, ks) :: insertGrouped rest l k

/-- The grouping loop of `get_issue` (jira.py lines 107-111). -/
def groupedLinks (links : List JiraIssueLink) : List (Str × List Str) :=
  links.foldl (fun acc link => insertGrouped acc (linkLabel link) (linkKey link)) []

/-- jira.py lines 114-117: each group rendered as
`inward_type ++ ": " ++ ", ".join(keys)`. -/
def formatted_links (links : List JiraIssueLink) : List Str :=
  (groupedLinks links).map (fun g => g.1 ++ ':' :: ' ' :: joinStr [',', ' '] g.2)

/-- jira.py lines 103-120: `issue_links` starts as `""`; when links exist it
becomes `"" + "\n" + "\n".join(formatted_links)`. -/
def issue_links (links : List JiraIssueLink) : Str :=
  if 0 < links.length then '\n' :: joinStr ['\n'] (formatted_links links)
  else []

/-- `config.url.rstrip('/')`. -/
def rstripSlash (s : Str) : Str := (s.reverse.dropWhile (fun c => c == '/')).reverse

/-- The synthesized plain-text body of `get_issue` (jira.py lines 122-138).
`comments` holds `(body, created, author)` triples. -/
def issueContent (issue_key : Str) (issue : JiraIssue) (description : Str)
    (comments : List (Str × Str × Str)) (created_date : Str)
    (links_block : Str) : Str :=
  strLit "Issue: " ++ issue_key
    ++ strLit "\nTitle: " ++ issue.fields.summary.getD []
    ++ strLit "\nType: " ++ issue.fields.issuetype_name
    ++ strLit "\nStatus: " ++ issue.fields.status_name
    ++ strLit "\nCreated: " ++ created_date
    ++ strLit "\n\nDescription:\n" ++ description
    ++ strLit "\n\nLinks: \n" ++ links_block
    ++ strLit "\n\nComments:\n"
    ++ joinStr ['\n']
        (comments.map (fun c => c.2.1 ++ strLit " - " ++ c.2.2 ++ strLit ": " ++ c.1))

/-- `JiraFetcher.get_issue` (jira.py lines 73-155).  `backend` is the result
of the `jira.issue` call; the `except` branch logs and re-raises the same
exception. -/
def get_issue (url : Str) (cleanJiraText : Str → Str) (issue_key : Str)
    (backend : Except PyErr JiraIssue) : Except PyErr Document :=
  match backend with
  | .error e => .error e
  | .ok issue =>
    let description := clean_text cleanJiraText issue.fields.description
    let comments := (issue.fields.comment.getD []).map (fun c =>
      (clean_text cleanJiraText (some c.body), parse_date c.created,
       c.author_displayName.getD (strLit "Unknown")))
    let created_date := parse_date issue.fields.created
    let links := issue.fields.issuelinks
    .ok
      { page_content :=
          issueContent issue_key issue description comments created_date
            (issue_links links)
        metadata :=
          [(strLit "key", .s issue_key),
           (strLit "title", .s (issue.fields.summary.getD [])),
           (strLit "type", .s issue.fields.issuetype_name),
           (strLit "status", .s issue.fields.status_name),
           (strLit "created_date", .s created_date),
           (strLit "priority", .s (issue.fields.priority_name.getD (strLit "None"))),
           (strLit "link", .s (rstripSlash url ++ strLit "/browse/" ++ issue_key))] }

/-- One hit of a JQL response (`results["issues"]`, key read per hit). -/
structure JqlHit where
  key : Str
deriving DecidableEq

/-- The `jira.jql` response. -/
structure JqlResponse where
  issues : List JqlHit
deriving DecidableEq

/-- `JiraFetcher.search_issues` (jira.py lines 157-186).  `jqlBackend` is
the result of the `jira.jql` call and `issueBackend` the per-key
`jira.issue` results; the `except` branch logs and *re-raises*. -/
def search_issues (url : Str) (cleanJiraText : Str → Str)
    (jqlBackend : Except PyErr JqlResponse)
    (issueBackend : Str → Except PyErr JiraIssue) :
    Except PyErr (List Document) :=
  match jqlBackend with
  | .error e => .error e
  | .ok results =>
    results.issues.mapM (fun hit =>
      get_issue url cleanJiraText hit.key (issueBackend hit.key))


/-! ## Resource address resolver (server.py `read_resource`, lines 88-140) -/

/-- `get_available_services()` flags (server.py lines 26-34). -/
structure Services where
  confluence : Bool
  jira : Bool
deriving DecidableEq

/-- A fetcher-level backend read performed by `read_resource`; the model
returns the list of reads actually attempted alongside the result. -/
inductive BCall where
  | spacePages (space_key : Str)
  | pageByTitle (space_key title : Str)
  | projectIssues (project_key : Str)
  | issue (issue_key : Str)
deriving DecidableEq

/-- Fetcher operations as oracles, at the granularity `read_resource` calls
them (each may itself wrap further backend traffic). -/
structure ResOracles where
  spacePages : Str → Except PyErr (List Document)
  pageByTitle : Str → Str → Option Document
  projectIssues : Str → Except PyErr (List Document)
  issue : Str → Except PyErr Document

/-- Rendering of a metadata value inside an f-string (`str` of the value). -/
def mvalStr : MVal → Str
  | .s v => v
  | .n v => Nat.toDigits 10 v
  | .null => strLit "None"

/-- server.py lines 103-106: space listing rendered as
`"# " ++ title ++ "\n\n" ++ body ++ "\n---"` blocks joined by blank lines. -/
def renderSpaceListing (documents : List Document) : Except PyErr Str := do
  let blocks ← documents.mapM (fun doc => do
    let t ← getItem doc.metadata (strLit "title")
    pure (strLit "# " ++ mvalStr t ++ strLit "\n\n" ++ doc.page_content
      ++ strLit "\n---"))
  pure (joinStr (strLit "\n\n") blocks)

/-- server.py lines 129-132: project listing rendered as
`"# " ++ key ++ ": " ++ title ++ "\n\n" ++ body ++ "\n---"` blocks. -/
def renderProjectListing (issues : List Document) : Except PyErr Str := do
  let blocks ← issues.mapM (fun issue => do
    let k ← getItem issue.metadata (strLit "key")
    let t ← getItem issue.metadata (strLit "title")
    pure (strLit "# " ++ mvalStr k ++ strLit ": " ++ mvalStr t ++ strLit "\n\n"
      ++ issue.page_content ++ strLit "\n---"))
  pure (joinStr (strLit "\n\n") blocks)

def confluenceScheme : Str := strLit "confluence://"

def jiraScheme : Str := strLit "jira://"

def invalidUri (uri : Str) : PyErr :=
  .valueError (strLit "Invalid resource URI: " ++ uri)

/-- The confluence space-listing arm (server.py lines 100-106): list all
pages of the space and render the concatenated blocks. -/
def confluenceListing (o : ResOracles) (space_key : Str) :
    Except PyErr Str × List BCall :=
  (match o.spacePages space_key with
   | .error e => .error e
   | .ok documents =>
     match renderSpaceListing documents with
     | .error e => .error e
     | .ok content => .ok content,
   [.spacePages space_key])

/-- The confluence titled-page arm (server.py lines 109-117): a missing
page raises `ValueError`. -/
def confluencePageRead (o : ResOracles) (space_key title : Str) :
    Except PyErr Str × List BCall :=
  (match o.pageByTitle space_key title with
   | none => .error (.valueError (strLit "Page not found: " ++ title))
   | some doc => .ok doc.page_content,
   [.pageByTitle space_key title])

/-- The jira project-listing arm (server.py lines 126-132). -/
def jiraListing (o : ResOracles) (project_key : Str) :
    Except PyErr Str × List BCall :=
  (match o.projectIssues project_key with
   | .error e => .error e
   | .ok issues =>
     match renderProjectListing issues with
     | .error e => .error e
     | .ok content => .ok content,
   [.projectIssues project_key])

/-- The jira single-issue arm (server.py lines 135-138); the first path
segment is parsed but unused. -/
def jiraIssueRead (o : ResOracles) (issue_key : Str) :
    Except PyErr Str × List BCall :=
  (match o.issue issue_key with
   | .error e => .error e
   | .ok issue => .ok issue.page_content,
   [.issue issue_key])

/-- `read_resource` (server.py lines 88-140), with the attempted fetcher
reads returned alongside the result.  The URI is scheme-matched with
`startswith`, the scheme stripped with `str.replace`, the remainder split
on `/`; one segment lists the container, three-plus segments with
`pages` / `issues` read one item, and anything else (or an unconfigured
backend) raises `ValueError` without touching a fetcher. -/
def read_resource (services : Services) (o : ResOracles) (uri : Str) :
    Except PyErr Str × List BCall :=
  if startsWith confluenceScheme uri then
    if services.confluence = false then
      (.error (.valueError (strLit "Confluence is not configured. Please provide Confluence credentials.")), [])
    else
      match splitOnChar '/' (pyReplace uri confluenceScheme []) with
      | [space_key] => confluenceListing o space_key
      | space_key :: kind :: title :: _ =>
        if kind = strLit "pages" then confluencePageRead o space_key title
        else (.error (invalidUri uri), [])
      | _ => (.error (invalidUri uri), [])
  else if startsWith jiraScheme uri then
    if services.jira = false then
      (.error (.valueError (strLit "Jira is not configured. Please provide Jira credentials.")), [])
    else
      match splitOnChar '/' (pyReplace uri jiraScheme []) with
      | [project_key] => jiraListing o project_key
      | _project_key :: kind :: issue_key :: _ =>
        if kind = strLit "issues" then jiraIssueRead o issue_key
        else (.error (invalidUri uri), [])
      | _ => (.error (invalidUri uri), [])
  else (.error (invalidUri uri), [])

/-! ## Tool dispatcher (server.py `call_tool`, lines 390-572) -/

/-- The dispatcher branches exercised by the claims; the remaining tool
branches are structurally identical oracle calls plus shaping and are not
modelled. -/
inductive ToolName where
  | confluence_search
  | get_page_by_title
  | get_space_pages
  | jira_search
deriving DecidableEq

/-- The `arguments` dict of a tool invocation: `none` models an absent key,
so a subscript access is a `KeyError` on `none` and `arguments.get` with a
default is `getD`. -/
structure ToolArgs where
  query : Option Str
  space_key : Option Str
  title : Option Str
  jql : Option Str
  fields : Option Str
  include_metadata : Option Bool
  start : Option Int
  limit : Option Int
deriving DecidableEq

/-- A fetcher call performed by a tool branch, with the arguments passed. -/
inductive TCall where
  | confluenceSearch (query : Str) (limit : Int)
  | pageByTitle (space_key title : Str)
  | spacePages (space_key : Str) (start limit : Int)
  | jiraSearch (jql fields : Str) (limit : Int)
deriving DecidableEq

/-- Fetcher methods as oracles, at the granularity `call_tool` calls them. -/
structure ToolOracles where
  confluenceSearch : Str → Int → List Document
  pageByTitle : Str → Str → Option Document
  spacePages : Str → Int → Int → Except PyErr (List Document)
  jiraSearch : Str → Str → Int → Except PyErr (List Document)

/-- The JSON value a tool branch shapes before `json.dumps`. -/
inductive JVal where
  | s (v : Str)
  | i (v : Int)
  | null
  | arr (vs : List JVal)
  | obj (fields : List (Str × JVal))

/-- Embedding of metadata values into the shaped JSON. -/
def jOfM : MVal → JVal
  | .s v => .s v
  | .n v => .i (Int.ofNat v)
  | .null => .null

def jOfMeta (m : List (Str × MVal)) : JVal :=
  .obj (m.map (fun kv => (kv.1, jOfM kv.2)))

/-- Shaping of one Confluence document into a search-result JSON object:
the identical dict comprehensions at server.py lines 398-409 and 487-498.
Metadata subscripts raise `KeyError` when the key is absent. -/
def shapeConfluenceEntry (doc : Document) : Except PyErr JVal := do
  let pid ← getItem doc.metadata (strLit "page_id")
  let title ← getItem doc.metadata (strLit "title")
  let space ← getItem doc.metadata (strLit "space")
  let url ← getItem doc.metadata (strLit "url")
  let lm ← getItem doc.metadata (strLit "last_modified")
  let ty ← getItem doc.metadata (strLit "type")
  pure (JVal.obj
    [(strLit "page_id", jOfM pid), (strLit "title", jOfM title),
     (strLit "space", jOfM space), (strLit "url", jOfM url),
     (strLit "last_modified", jOfM lm), (strLit "type", jOfM ty),
     (strLit "excerpt", .s doc.page_content)])

/-- Shaping of one Jira document at server.py lines 514-526, including the
500-character excerpt truncation. -/
def shapeJiraSearchEntry (doc : Document) : Except PyErr JVal := do
  let key ← getItem doc.metadata (strLit "key")
  let title ← getItem doc.metadata (strLit "title")
  let ty ← getItem doc.metadata (strLit "type")
  let status ← getItem doc.metadata (strLit "status")
  let cd ← getItem doc.metadata (strLit "created_date")
  let pr ← getItem doc.metadata (strLit "priority")
  let link ← getItem doc.metadata (strLit "link")
  pure (JVal.obj
    [(strLit "key", jOfM key), (strLit "title", jOfM title),
     (strLit "type", jOfM ty), (strLit "status", jOfM status),
     (strLit "created_date", jOfM cd), (strLit "priority", jOfM pr),
     (strLit "link", jOfM link),
     (strLit "excerpt",
      .s (if 500 < doc.page_content.length then
            doc.page_content.take 500 ++ strLit "..."
          else doc.page_content))])

/-- The `try:` body of `call_tool` for the modelled branches (server.py
lines 395-412, 470-481, 483-501, 509-528).  The result pairs the shaped
JSON (or raised error) with the fetcher calls actually made, recording the
argument values passed to each fetcher. -/
def call_tool_body (o : ToolOracles) :
    ToolName → ToolArgs → Except PyErr JVal × List TCall
  | .confluence_search, args =>
    let limit : Int := min (args.limit.getD 10) 50
    match args.query with
    | none => (.error (.keyError (strLit "query")), [])
    | some query =>
      let documents := o.confluenceSearch query limit
      (match documents.mapM shapeConfluenceEntry with
       | .error e => .error e
       | .ok entries => .ok (JVal.arr entries),
       [TCall.confluenceSearch query limit])
  | .get_page_by_title, args =>
    match args.space_key with
    | none => (.error (.keyError (strLit "space_key")), [])
    | some space_key =>
      match args.title with
      | none => (.error (.keyError (strLit "title")), [])
      | some title =>
        let include_metadata := args.include_metadata.getD true
        match o.pageByTitle space_key title with
        | none =>
          (.error (.attributeError
            (strLit "NoneType object has no attribute page_content")),
           [TCall.pageByTitle space_key title])
        | some doc =>
          (.ok (if include_metadata then
                  JVal.obj [(strLit "content", .s doc.page_content),
                            (strLit "metadata", jOfMeta doc.metadata)]
                else JVal.obj [(strLit "content", .s doc.page_content)]),
           [TCall.pageByTitle space_key title])
  | .get_space_pages, args =>
    let start : Int := args.start.getD 0
    let limit : Int := min (args.limit.getD 10) 50
    match args.query with
    | none => (.error (.keyError (strLit "query")), [])
    | some query =>
      (match o.spacePages query start limit with
       | .error e => .error e
       | .ok documents =>
         match documents.mapM shapeConfluenceEntry with
         | .error e => .error e
         | .ok entries => .ok (JVal.arr entries),
       [TCall.spacePages query start limit])
  | .jira_search, args =>
    let limit : Int := min (args.limit.getD 10) 50
    match args.jql with
    | none => (.error (.keyError (strLit "jql")), [])
    | some jql =>
      let fields := args.fields.getD (strLit "*all")
      (match o.jiraSearch jql fields limit with
       | .error e => .error e
       | .ok documents =>
         match documents.mapM shapeJiraSearchEntry with
         | .error e => .error e
         | .ok entries => .ok (JVal.arr entries),
       [TCall.jiraSearch jql fields limit])

/-- `call_tool` (server.py lines 390-572): the whole dispatch runs under
`try/except Exception`, which logs and re-raises every error as the uniform
`RuntimeError` carrying `"Tool execution failed: "` plus the original
message. -/
def call_tool (o : ToolOracles) (name : ToolName) (args : ToolArgs) :
    Except PyErr JVal × List TCall :=
  match call_tool_body o name args with
  | (.ok r, log) => (.ok r, log)
  | (.error e, log) =>
    (.error (.runtimeError (strLit "Tool execution failed: " ++ e.msg)), log)

/-! ## Example inputs for witnesses and counterexamples -/

def examplePage : ConfluencePage :=
  { id := strLit "12345", title := strLit "Onboarding",
    body_storage_value := strLit "<p>welcome</p>", version_number := some 4 }

/-- An argument bag with every key absent. -/
def noArgs : ToolArgs :=
  { query := none, space_key := none, title := none, jql := none,
    fields := none, include_metadata := none, start := none, limit := none }

/-- Oracles whose backends report empty results and missing pages. -/
def exToolOracles : ToolOracles :=
  { confluenceSearch := fun _ _ => []
    pageByTitle := fun _ _ => none
    spacePages := fun _ _ _ => .ok []
    jiraSearch := fun _ _ _ => .ok [] }

/-! ## C1 — get_page_by_title -/

/-- C1: evaluation at the failing input.  The claim says the operation
returns exactly one Document whenever the backend reports a matching page;
but with `clean_html` left at its default `True` the call to the undefined
`_clean_html_content` raises `AttributeError`, the blanket `except`
swallows it, and `None` is returned for a page the backend did report.
With `clean_html=False` the same input yields a Document, isolating the
missing-method slip. -/
theorem C1_match_with_clean_true_returns_none :
    get_page_by_title (strLit "http://confluence") (strLit "ENG")
        (.ok (some examplePage)) true = none
    ∧ get_page_by_title (strLit "http://confluence") (strLit "ENG")
        (.ok (some examplePage)) false ≠ none := by
  exact ⟨rfl, by decide⟩

/-! ## C2 — search failure policy -/

/-- C2 counterexample: a raising JQL backend makes `search_issues`
re-raise the error rather than return the empty result sequence, refuting
the claim that every search operation converts backend failure into an
empty result. -/
theorem C2_counterexample_jira_search_raises :
    search_issues (strLit "http://jira") id (.error (.backend (strLit "boom")))
        (fun _ => .error (.backend (strLit "boom")))
      = .error (.backend (strLit "boom"))
    ∧ search_issues (strLit "http://jira") id (.error (.backend (strLit "boom")))
        (fun _ => .error (.backend (strLit "boom")))
      ≠ .ok [] := by
  exact ⟨rfl, fun h => Except.noConfusion h⟩

/-- C2 (amended): on a raising backend call the Confluence CQL search logs
and returns the empty list, while the issue-tracker JQL search logs and
re-raises the error to its caller. -/
theorem C2_amended_search_failure_policy :
    (∀ (url : Str) (e : PyErr), search url (.error e) = [])
    ∧ (∀ (url : Str) (cleanJiraText : Str → Str) (e : PyErr)
        (issueBackend : Str → Except PyErr JiraIssue),
        search_issues url cleanJiraText (.error e) issueBackend = .error e) :=
  ⟨fun _ _ => rfl, fun _ _ _ _ => rfl⟩

/-! ## C5 — get_issue failure policy -/

/-- C5: `get_issue` re-raises any backend fetch error unchanged (the
`except` branch logs then bare-`raise`s), so a failed fetch — a
nonexistent key included — is never converted into an empty or absent
result. -/
theorem C5_get_issue_reraises_fetch_error (url : Str)
    (cleanJiraText : Str → Str) (issue_key : Str) (e : PyErr) :
    get_issue url cleanJiraText issue_key (.error e) = .error e
    ∧ ∀ d : Document,
        get_issue url cleanJiraText issue_key (.error e) ≠ .ok d :=
  ⟨rfl, fun _ h => Except.noConfusion h⟩

/-! ## C7 — search limit clamping -/

/-- The uniform-error wrapper does not alter the call log. -/
theorem call_tool_snd (o : ToolOracles) (name : ToolName) (args : ToolArgs) :
    (call_tool o name args).2 = (call_tool_body o name args).2 := by
  unfold call_tool
  cases h : call_tool_body o name args with
  | mk x log => cases x <;> rfl

/-- C7: for both search tools the limit handed to the fetcher is
`min(requested, 50)` — the call log records exactly one fetcher call whose
limit argument is the clamped value — and in particular a request with
`limit=1000` reaches the fetcher with limit `50`. -/
theorem C7_search_limit_clamped :
    (∀ (o : ToolOracles) (args : ToolArgs) (query : Str),
        args.query = some query →
        (call_tool o .confluence_search args).2
          = [TCall.confluenceSearch query (min (args.limit.getD 10) 50)])
    ∧ (∀ (o : ToolOracles) (args : ToolArgs) (jql : Str),
        args.jql = some jql →
        (call_tool o .jira_search args).2
          = [TCall.jiraSearch jql (args.fields.getD (strLit "*all"))
              (min (args.limit.getD 10) 50)])
    ∧ (∀ (o : ToolOracles) (args : ToolArgs) (query : Str),
        args.query = some query → args.limit = some 1000 →
        (call_tool o .confluence_search args).2
          = [TCall.confluenceSearch query 50]) := by
  refine ⟨?_, ?_, ?_⟩
  · intro o args query hq
    rw [call_tool_snd]
    simp only [call_tool_body, hq]
  · intro o args jql hj
    rw [call_tool_snd]
    simp only [call_tool_body, hj]
  · intro o args query hq hl
    rw [call_tool_snd]
    simp only [call_tool_body, hq, hl]
    have h50 : ((some (1000 : Int)).getD 10 ⊓ 50) = 50 := by decide
    rw [h50]

/-- C7 witness: a concrete `confluence_search` invocation with
`limit=1000` reaches the fetcher with limit `50`. -/
theorem C7_witness :
    (call_tool exToolOracles .confluence_search
        { noArgs with query := some (strLit "type=page"), limit := some 1000 }).2
      = [TCall.confluenceSearch (strLit "type=page") 50] := by
  have h := C7_search_limit_clamped.2.2 exToolOracles
    { noArgs with query := some (strLit "type=page"), limit := some 1000 }
    (strLit "type=page") rfl rfl
  simpa using h

/-! ## C9 — the get_space_pages tool branch -/

/-- `get_space_pages` on an empty backend listing returns no documents. -/
theorem get_space_pages_empty (url space_key : Str) (clean_html : Bool) :
    get_space_pages url space_key (.ok []) clean_html = .ok [] := rfl

/-- `get_space_pages` with `clean_html` true fails on the first page with
the missing-method `AttributeError`. -/
theorem get_space_pages_clean_error (url space_key : Str)
    (page : ConfluencePage) (rest : List ConfluencePage) :
    get_space_pages url space_key (.ok (page :: rest)) true
      = .error (.attributeError
          (strLit "ConfluenceFetcher object has no attribute _clean_html_content")) := rfl

/-- C9: the `get_space_pages` handler reads `arguments["query"]` although
the declared schema requires `space_key` and declares no `query` key, so
every schema-conforming invocation raises the uniform tool-execution
error; and even for argument bags that do carry a `query` key, when the
space-pages oracle is the real `get_space_pages` operation (HTML cleaning
left at its default) no invocation ever returns page data — a successful
result can only be the empty array. -/
theorem C9_get_space_pages_tool_always_fails :
    (∀ (o : ToolOracles) (args : ToolArgs) (space_key : Str),
        args.space_key = some space_key → args.query = none →
        (call_tool o .get_space_pages args).1
          = .error (.runtimeError (strLit "Tool execution failed: "
              ++ strLit "query")))
    ∧ (∀ (o : ToolOracles) (args : ToolArgs) (url : Str)
        (pages : List ConfluencePage),
        (∀ q s l, o.spacePages q s l = get_space_pages url q (.ok pages) true) →
        ∀ r log, call_tool o .get_space_pages args = (.ok r, log) →
          r = JVal.arr []) := by
  constructor
  · intro o args space_key _ hq
    simp [call_tool, call_tool_body, hq, PyErr.msg]
  · intro o args url pages horacle r log hok
    unfold call_tool call_tool_body at hok
    cases hq : args.query with
    | none =>
      simp only [hq] at hok
      exact absurd hok (by simp)
    | some query =>
      simp only [hq, horacle] at hok
      cases pages with
      | nil =>
        rw [get_space_pages_empty] at hok
        have hok2 : ((Except.ok (JVal.arr []) : Except PyErr JVal),
            [TCall.spacePages query (args.start.getD 0) (args.limit.getD 10 ⊓ 50)])
            = (Except.ok r, log) := hok
        have hfst := congrArg Prod.fst hok2
        simp at hfst
        exact hfst.symm
      | cons p ps =>
        rw [get_space_pages_clean_error] at hok
        exact absurd hok (by simp)

/-- C9 witness: a concrete schema-conforming invocation (only `space_key`
supplied) fails with the uniform error. -/
theorem C9_witness :
    (call_tool exToolOracles .get_space_pages
        { noArgs with space_key := some (strLit "ENG") }).1
      = .error (.runtimeError (strLit "Tool execution failed: "
          ++ strLit "query")) :=
  C9_get_space_pages_tool_always_fails.1 exToolOracles
    { noArgs with space_key := some (strLit "ENG") } (strLit "ENG") rfl rfl

/-! ## C10 — the get_page_by_title tool branch -/

/-- C10: whenever the underlying title lookup yields no Document, the
`get_page_by_title` handler dereferences `doc.page_content` on `None`,
so the dispatcher surfaces the uniform "Tool execution failed" error
instead of an empty result. -/
theorem C10_get_page_by_title_tool_miss_is_error (o : ToolOracles)
    (args : ToolArgs) (space_key title : Str)
    (hsk : args.space_key = some space_key) (ht : args.title = some title)
    (hmiss : o.pageByTitle space_key title = none) :
    (call_tool o .get_page_by_title args).1
      = .error (.runtimeError (strLit "Tool execution failed: "
          ++ strLit "NoneType object has no attribute page_content")) := by
  simp [call_tool, call_tool_body, hsk, ht, hmiss, PyErr.msg]

/-- C10 witness: a concrete invocation whose lookup misses surfaces the
uniform error. -/
theorem C10_witness :
    (call_tool exToolOracles .get_page_by_title
        { noArgs with space_key := some (strLit "ENG"),
                      title := some (strLit "Missing") }).1
      = .error (.runtimeError (strLit "Tool execution failed: "
          ++ strLit "NoneType object has no attribute page_content")) :=
  C10_get_page_by_title_tool_miss_is_error exToolOracles
    { noArgs with space_key := some (strLit "ENG"),
                  title := some (strLit "Missing") }
    (strLit "ENG") (strLit "Missing") rfl rfl rfl

/-! ## C8 / C6 — routing lemmas for read_resource -/

/-- Stripping a scheme then splitting recovers the path segments, provided
no segment contains a separator or a colon. -/
theorem scheme_strip_split {scheme : Str} (parts : List Str)
    (hs : scheme ≠ []) (hcs : ':' ∈ scheme) (hne : parts ≠ [])
    (hsep : ∀ p ∈ parts, '/' ∉ p) (hcol : ∀ p ∈ parts, ':' ∉ p) :
    splitOnChar '/' (pyReplace (scheme ++ joinSeg '/' parts) scheme [])
      = parts := by
  have hx : ':' ∉ joinSeg '/' parts := by
    intro hmem
    rcases mem_joinSeg hmem with h | ⟨p, hp, hxp⟩
    · exact absurd h (by decide)
    · exact hcol p hp hxp
  rw [pyReplace_strip_scheme hs hcs hx, List.nil_append,
    splitOnChar_joinSeg hne hsep]

/-- The confluence scheme test fails on jira-scheme URIs. -/
theorem conf_not_starts_jira (t : Str) :
    startsWith confluenceScheme (jiraScheme ++ t) = false := rfl

/-- Routing: a one-segment confluence URI reaches the space-listing arm. -/
theorem rr_conf_single (services : Services) (o : ResOracles) (key : Str)
    (hconf : services.confluence = true) (hsep : '/' ∉ key) (hcol : ':' ∉ key) :
    read_resource services o (confluenceScheme ++ joinSeg '/' [key])
      = confluenceListing o key := by
  unfold read_resource
  rw [startsWith_append_self, if_pos rfl, hconf,
    scheme_strip_split [key] (by decide) (by decide) (by simp)
      (by intro p hp; rw [List.mem_singleton.mp hp]; exact hsep)
      (by intro p hp; rw [List.mem_singleton.mp hp]; exact hcol)]
  simp

/-- Routing: a three-plus-segment confluence URI with second segment
`pages` reaches the titled-page arm. -/
theorem rr_conf_item (services : Services) (o : ResOracles)
    (key title : Str) (rest : List Str) (hconf : services.confluence = true)
    (hsep : ∀ p ∈ key :: strLit "pages" :: title :: rest, '/' ∉ p)
    (hcol : ∀ p ∈ key :: strLit "pages" :: title :: rest, ':' ∉ p) :
    read_resource services o
        (confluenceScheme ++ joinSeg '/' (key :: strLit "pages" :: title :: rest))
      = confluencePageRead o key title := by
  unfold read_resource
  rw [startsWith_append_self, if_pos rfl, hconf,
    scheme_strip_split _ (by decide) (by decide) (by simp) hsep hcol]
  simp

/-- Routing: a two-segment confluence URI is rejected with no fetcher
read. -/
theorem rr_conf_two_seg (services : Services) (o : ResOracles)
    (key kind : Str) (hconf : services.confluence = true)
    (hsep : ∀ p ∈ [key, kind], '/' ∉ p) (hcol : ∀ p ∈ [key, kind], ':' ∉ p) :
    read_resource services o (confluenceScheme ++ joinSeg '/' [key, kind])
      = (.error (invalidUri (confluenceScheme ++ joinSeg '/' [key, kind])), []) := by
  unfold read_resource
  rw [startsWith_append_self, if_pos rfl, hconf,
    scheme_strip_split _ (by decide) (by decide) (by simp) hsep hcol]
  simp

/-- Routing: three-plus confluence segments whose second segment is not
`pages` are rejected with no fetcher read. -/
theorem rr_conf_bad_kind (services : Services) (o : ResOracles)
    (key kind title : Str) (rest : List Str)
    (hconf : services.confluence = true) (hkind : kind ≠ strLit "pages")
    (hsep : ∀ p ∈ key :: kind :: title :: rest, '/' ∉ p)
    (hcol : ∀ p ∈ key :: kind :: title :: rest, ':' ∉ p) :
    read_resource services o
        (confluenceScheme ++ joinSeg '/' (key :: kind :: title :: rest))
      = (.error (invalidUri
          (confluenceScheme ++ joinSeg '/' (key :: kind :: title :: rest))), []) := by
  unfold read_resource
  rw [startsWith_append_self, if_pos rfl, hconf,
    scheme_strip_split _ (by decide) (by decide) (by simp) hsep hcol]
  simp [hkind]

/-- Routing: any confluence-scheme URI is rejected before any fetcher read
when Confluence is not configured. -/
theorem rr_conf_unconfigured (services : Services) (o : ResOracles) (t : Str)
    (hconf : services.confluence = false) :
    read_resource services o (confluenceScheme ++ t)
      = (.error (.valueError (strLit "Confluence is not configured. Please provide Confluence credentials.")), []) := by
  unfold read_resource
  rw [startsWith_append_self, if_pos rfl, hconf]
  simp

/-- Routing: a one-segment jira URI reaches the project-listing arm. -/
theorem rr_jira_single (services : Services) (o : ResOracles) (key : Str)
    (hjira : services.jira = true) (hsep : '/' ∉ key) (hcol : ':' ∉ key) :
    read_resource services o (jiraScheme ++ joinSeg '/' [key])
      = jiraListing o key := by
  unfold read_resource
  rw [conf_not_starts_jira, if_neg (by simp), startsWith_append_self,
    if_pos rfl, hjira,
    scheme_strip_split [key] (by decide) (by decide) (by simp)
      (by intro p hp; rw [List.mem_singleton.mp hp]; exact hsep)
      (by intro p hp; rw [List.mem_singleton.mp hp]; exact hcol)]
  simp

/-- Routing: a three-plus-segment jira URI with second segment `issues`
reaches the single-issue arm keyed by the third segment. -/
theorem rr_jira_item (services : Services) (o : ResOracles)
    (key issue_key : Str) (rest : List Str) (hjira : services.jira = true)
    (hsep : ∀ p ∈ key :: strLit "issues" :: issue_key :: rest, '/' ∉ p)
    (hcol : ∀ p ∈ key :: strLit "issues" :: issue_key :: rest, ':' ∉ p) :
    read_resource services o
        (jiraScheme ++ joinSeg '/' (key :: strLit "issues" :: issue_key :: rest))
      = jiraIssueRead o issue_key := by
  unfold read_resource
  rw [conf_not_starts_jira, if_neg (by simp), startsWith_append_self,
    if_pos rfl, hjira,
    scheme_strip_split _ (by decide) (by decide) (by simp) hsep hcol]
  simp

/-- Routing: a two-segment jira URI is rejected with no fetcher read. -/
theorem rr_jira_two_seg (services : Services) (o : ResOracles)
    (key kind : Str) (hjira : services.jira = true)
    (hsep : ∀ p ∈ [key, kind], '/' ∉ p) (hcol : ∀ p ∈ [key, kind], ':' ∉ p) :
    read_resource services o (jiraScheme ++ joinSeg '/' [key, kind])
      = (.error (invalidUri (jiraScheme ++ joinSeg '/' [key, kind])), []) := by
  unfold read_resource
  rw [conf_not_starts_jira, if_neg (by simp), startsWith_append_self,
    if_pos rfl, hjira,
    scheme_strip_split _ (by decide) (by decide) (by simp) hsep hcol]
  simp

/-- Routing: three-plus jira segments whose second segment is not `issues`
are rejected with no fetcher read. -/
theorem rr_jira_bad_kind (services : Services) (o : ResOracles)
    (key kind issue_key : Str) (rest : List Str)
    (hjira : services.jira = true) (hkind : kind ≠ strLit "issues")
    (hsep : ∀ p ∈ key :: kind :: issue_key :: rest, '/' ∉ p)
    (hcol : ∀ p ∈ key :: kind :: issue_key :: rest, ':' ∉ p) :
    read_resource services o
        (jiraScheme ++ joinSeg '/' (key :: kind :: issue_key :: rest))
      = (.error (invalidUri
          (jiraScheme ++ joinSeg '/' (key :: kind :: issue_key :: rest))), []) := by
  unfold read_resource
  rw [conf_not_starts_jira, if_neg (by simp), startsWith_append_self,
    if_pos rfl, hjira,
    scheme_strip_split _ (by decide) (by decide) (by simp) hsep hcol]
  simp [hkind]

/-- Routing: any jira-scheme URI is rejected before any fetcher read when
Jira is not configured. -/
theorem rr_jira_unconfigured (services : Services) (o : ResOracles) (t : Str)
    (hjira : services.jira = false) :
    read_resource services o (jiraScheme ++ t)
      = (.error (.valueError (strLit "Jira is not configured. Please provide Jira credentials.")), []) := by
  unfold read_resource
  rw [conf_not_starts_jira, if_neg (by simp), startsWith_append_self,
    if_pos rfl, hjira]
  simp

/-! ## C8 — wiki listing fails for nonempty spaces -/

/-- C8: with HTML cleaning left at its default `True`, the reference to the
undefined `_clean_html_content` makes `get_space_pages` raise
`AttributeError` for every space whose backend listing is nonempty, and
consequently the one-segment wiki resource read fails for every such
space. -/
theorem C8_space_pages_clean_raises_and_listing_fails :
    (∀ (url space_key : Str) (page : ConfluencePage)
        (rest : List ConfluencePage),
        get_space_pages url space_key (.ok (page :: rest)) true
          = .error (.attributeError
              (strLit "ConfluenceFetcher object has no attribute _clean_html_content")))
    ∧ (∀ (services : Services) (o : ResOracles) (url space_key : Str)
        (page : ConfluencePage) (rest : List ConfluencePage),
        services.confluence = true →
        (∀ k, o.spacePages k = get_space_pages url k (.ok (page :: rest)) true) →
        '/' ∉ space_key → ':' ∉ space_key →
        (read_resource services o
            (confluenceScheme ++ joinSeg '/' [space_key])).1
          = .error (.attributeError
              (strLit "ConfluenceFetcher object has no attribute _clean_html_content"))) := by
  constructor
  · intro url space_key page rest
    exact get_space_pages_clean_error url space_key page rest
  · intro services o url space_key page rest hconf horacle hsep hcol
    rw [rr_conf_single services o space_key hconf hsep hcol]
    unfold confluenceListing
    rw [horacle, get_space_pages_clean_error]

/-- Fetcher oracles whose confluence space listing is the real
`get_space_pages` over a one-page backend response. -/
def exBuggyResOracles : ResOracles :=
  { spacePages := fun k =>
      get_space_pages (strLit "http://confluence") k (.ok [examplePage]) true
    pageByTitle := fun _ _ => none
    projectIssues := fun _ => .ok []
    issue := fun _ => .error (.backend (strLit "down")) }

/-- C8 witness: the listing read of a concrete one-page space fails with
the missing-method error. -/
theorem C8_witness :
    (read_resource ⟨true, true⟩ exBuggyResOracles
        (confluenceScheme ++ joinSeg '/' [strLit "ENG"])).1
      = .error (.attributeError
          (strLit "ConfluenceFetcher object has no attribute _clean_html_content")) :=
  C8_space_pages_clean_raises_and_listing_fails.2 ⟨true, true⟩
    exBuggyResOracles (strLit "http://confluence") (strLit "ENG") examplePage []
    rfl (fun _ => rfl) (by decide) (by decide)

/-! ## C6 — resource URI grammar -/

/-- C6: resolution of resource URI shapes.  One segment resolves to the
container-listing arm, whose only fetcher read is the space/project
listing; three-plus segments with second segment `pages` (wiki scheme) or
`issues` (tracker scheme) resolve to the single-item arm, whose only
fetcher read is the titled-page or keyed-issue lookup; a two-segment path,
a three-plus-segment path with any other second segment, and any URI for
an unconfigured backend raise `ValueError` with no fetcher read
attempted. -/
theorem C6_resource_uri_resolution :
    (∀ (services : Services) (o : ResOracles) (key : Str),
        services.confluence = true → '/' ∉ key → ':' ∉ key →
        read_resource services o (confluenceScheme ++ joinSeg '/' [key])
          = confluenceListing o key)
    ∧ (∀ (services : Services) (o : ResOracles) (key title : Str)
        (rest : List Str), services.confluence = true →
        (∀ p ∈ key :: strLit "pages" :: title :: rest, '/' ∉ p) →
        (∀ p ∈ key :: strLit "pages" :: title :: rest, ':' ∉ p) →
        read_resource services o
            (confluenceScheme ++ joinSeg '/' (key :: strLit "pages" :: title :: rest))
          = confluencePageRead o key title)
    ∧ (∀ (services : Services) (o : ResOracles) (key : Str),
        services.jira = true → '/' ∉ key → ':' ∉ key →
        read_resource services o (jiraScheme ++ joinSeg '/' [key])
          = jiraListing o key)
    ∧ (∀ (services : Services) (o : ResOracles) (key issue_key : Str)
        (rest : List Str), services.jira = true →
        (∀ p ∈ key :: strLit "issues" :: issue_key :: rest, '/' ∉ p) →
        (∀ p ∈ key :: strLit "issues" :: issue_key :: rest, ':' ∉ p) →
        read_resource services o
            (jiraScheme ++ joinSeg '/' (key :: strLit "issues" :: issue_key :: rest))
          = jiraIssueRead o issue_key)
    ∧ (∀ (o : ResOracles) (key : Str),
        (confluenceListing o key).2 = [BCall.spacePages key])
    ∧ (∀ (o : ResOracles) (key title : Str),
        (confluencePageRead o key title).2 = [BCall.pageByTitle key title])
    ∧ (∀ (o : ResOracles) (key : Str),
        (jiraListing o key).2 = [BCall.projectIssues key])
    ∧ (∀ (o : ResOracles) (issue_key : Str),
        (jiraIssueRead o issue_key).2 = [BCall.issue issue_key])
    ∧ (∀ (services : Services) (o : ResOracles) (key kind : Str),
        services.confluence = true →
        (∀ p ∈ [key, kind], '/' ∉ p) → (∀ p ∈ [key, kind], ':' ∉ p) →
        read_resource services o (confluenceScheme ++ joinSeg '/' [key, kind])
          = (.error (invalidUri
              (confluenceScheme ++ joinSeg '/' [key, kind])), []))
    ∧ (∀ (services : Services) (o : ResOracles) (key kind title : Str)
        (rest : List Str), services.confluence = true →
        kind ≠ strLit "pages" →
        (∀ p ∈ key :: kind :: title :: rest, '/' ∉ p) →
        (∀ p ∈ key :: kind :: title :: rest, ':' ∉ p) →
        read_resource services o
            (confluenceScheme ++ joinSeg '/' (key :: kind :: title :: rest))
          = (.error (invalidUri
              (confluenceScheme ++ joinSeg '/' (key :: kind :: title :: rest))), []))
    ∧ (∀ (services : Services) (o : ResOracles) (key kind : Str),
        services.jira = true →
        (∀ p ∈ [key, kind], '/' ∉ p) → (∀ p ∈ [key, kind], ':' ∉ p) →
        read_resource services o (jiraScheme ++ joinSeg '/' [key, kind])
          = (.error (invalidUri (jiraScheme ++ joinSeg '/' [key, kind])), []))
    ∧ (∀ (services : Services) (o : ResOracles) (key kind issue_key : Str)
        (rest : List Str), services.jira = true →
        kind ≠ strLit "issues" →
        (∀ p ∈ key :: kind :: issue_key :: rest, '/' ∉ p) →
        (∀ p ∈ key :: kind :: issue_key :: rest, ':' ∉ p) →
        read_resource services o
            (jiraScheme ++ joinSeg '/' (key :: kind :: issue_key :: rest))
          = (.error (invalidUri
              (jiraScheme ++ joinSeg '/' (key :: kind :: issue_key :: rest))), []))
    ∧ (∀ (services : Services) (o : ResOracles) (t : Str),
        services.confluence = false →
        read_resource services o (confluenceScheme ++ t)
          = (.error (.valueError
              (strLit "Confluence is not configured. Please provide Confluence credentials.")), []))
    ∧ (∀ (services : Services) (o : ResOracles) (t : Str),
        services.jira = false →
        read_resource services o (jiraScheme ++ t)
          = (.error (.valueError
              (strLit "Jira is not configured. Please provide Jira credentials.")), [])) := by
  refine ⟨rr_conf_single, rr_conf_item, rr_jira_single, rr_jira_item,
    fun o key => rfl, fun o key title => rfl, fun o key => rfl,
    fun o issue_key => rfl, rr_conf_two_seg, rr_conf_bad_kind,
    rr_jira_two_seg, rr_jira_bad_kind, rr_conf_unconfigured,
    rr_jira_unconfigured⟩

/-- Benign fetcher oracles for the C6 witness. -/
def exResOracles : ResOracles :=
  { spacePages := fun _ => .ok []
    pageByTitle := fun _ _ => none
    projectIssues := fun _ => .ok []
    issue := fun _ => .error (.backend (strLit "down")) }

/-- C6 witness: the two-segment URI `confluence://ENG/pages` is rejected
as malformed with no fetcher read. -/
theorem C6_witness :
    read_resource ⟨true, true⟩ exResOracles
        (confluenceScheme ++ joinSeg '/' [strLit "ENG", strLit "pages"])
      = (.error (invalidUri
          (confluenceScheme ++ joinSeg '/' [strLit "ENG", strLit "pages"])), []) :=
  C6_resource_uri_resolution.2.2.2.2.2.2.2.2.1 ⟨true, true⟩ exResOracles
    (strLit "ENG") (strLit "pages") rfl (by decide) (by decide)

/-! ## C4 — link grouping -/

/-- The grouping loop restated on label/key pairs. -/
def groupPairs (ps : List (Str × Str)) : List (Str × List Str) :=
  ps.foldl (fun acc p => insertGrouped acc p.1 p.2) []

/-- Structural worker for `groupLinksSpec`. -/
def groupLinksSpecAux : Nat → List (Str × Str) → List (Str × List Str)
  | 0, _ => []
  | _ + 1, [] => []
  | fuel + 1, (l, k) :: rest =>
    (l, k :: (rest.filter (fun p => p.1 == l)).map Prod.snd)
      :: groupLinksSpecAux fuel (rest.filter (fun p => !(p.1 == l)))

/-- The grouping rule as the spec words it: one group per distinct inward
label in order of first encounter, each group collecting the keys carrying
that label in encounter order.  This is the spec-side reformulation to be
proved equal to the `defaultdict`-based `groupedLinks` from the source. -/
def groupLinksSpec (ps : List (Str × Str)) : List (Str × List Str) :=
  groupLinksSpecAux ps.length ps

theorem groupLinksSpecAux_adequate :
    ∀ (fuel : Nat) (ps : List (Str × Str)), ps.length ≤ fuel →
      groupLinksSpecAux fuel ps = groupLinksSpecAux ps.length ps := by
  intro fuel
  induction fuel using Nat.strong_induction_on with
  | _ fuel ih =>
    intro ps hle
    match fuel, ps with
    | 0, ps =>
      have : ps = [] := List.length_eq_zero.mp (Nat.le_zero.mp hle)
      subst this
      rfl
    | fuel + 1, [] => rfl
    | fuel + 1, (l, k) :: rest =>
      have hrest : rest.length ≤ fuel := by
        simp only [List.length_cons] at hle
        omega
      show (l, _) :: groupLinksSpecAux fuel (rest.filter (fun p => !(p.1 == l)))
          = (l, _) :: groupLinksSpecAux rest.length (rest.filter (fun p => !(p.1 == l)))
      have hf : (rest.filter (fun p => !(p.1 == l))).length ≤ rest.length :=
        List.length_filter_le _ _
      rw [ih fuel (Nat.lt_succ_self fuel) _ (le_trans hf hrest),
        ih rest.length (Nat.lt_succ_of_le hrest) _ hf]

theorem groupLinksSpec_nil : groupLinksSpec [] = [] := rfl

theorem groupLinksSpec_cons (l k : Str) (rest : List (Str × Str)) :
    groupLinksSpec ((l, k) :: rest)
      = (l, k :: (rest.filter (fun p => p.1 == l)).map Prod.snd)
          :: groupLinksSpec (rest.filter (fun p => !(p.1 == l))) := by
  show groupLinksSpecAux (rest.length + 1) ((l, k) :: rest) = _
  rw [groupLinksSpecAux]
  congr 1
  exact groupLinksSpecAux_adequate rest.length _ (List.length_filter_le _ _)

/-- `insertGrouped` never introduces a label other than the inserted one. -/
theorem not_mem_labels_insertGrouped {acc : List (Str × List Str)}
    {l k x : Str} (hx : x ∉ acc.map Prod.fst) (hxl : x ≠ l) :
    x ∉ (insertGrouped acc l k).map Prod.fst := by
  induction acc with
  | nil =>
    simp [insertGrouped]
    exact hxl
  | cons g rest ih =>
    obtain ⟨lab, ks⟩ := g
    rw [insertGrouped]
    by_cases hlab : lab = l
    · rw [if_pos hlab]
      simpa using hx
    · rw [if_neg hlab]
      simp only [List.map_cons, List.mem_cons] at hx ⊢
      push_neg at hx ⊢
      exact ⟨hx.1, ih hx.2⟩

/-- Extraction: once a group is at the head of the accumulator and its
label occurs nowhere else in the accumulator, folding the remaining pairs
appends exactly the keys carrying that label to the head group, and the
other pairs fold on below it. -/
theorem foldl_insertGrouped_extract :
    ∀ (ps : List (Str × Str)) (acc : List (Str × List Str)) (l : Str)
      (ks : List Str), l ∉ acc.map Prod.fst →
      ps.foldl (fun a p => insertGrouped a p.1 p.2) ((l, ks) :: acc)
        = (l, ks ++ (ps.filter (fun p => p.1 == l)).map Prod.snd)
            :: (ps.filter (fun p => !(p.1 == l))).foldl
                (fun a p => insertGrouped a p.1 p.2) acc := by
  intro ps
  induction ps with
  | nil => intro acc l ks _; simp
  | cons p rest ih =>
    intro acc l ks hl
    obtain ⟨l', k'⟩ := p
    rw [List.foldl_cons]
    show rest.foldl _ (insertGrouped ((l, ks) :: acc) l' k') = _
    rw [insertGrouped]
    by_cases hll : l = l'
    · subst hll
      rw [if_pos rfl, ih acc l (ks ++ [k']) hl]
      simp [List.append_assoc]
    · rw [if_neg hll]
      rw [ih (insertGrouped acc l' k') l ks
        (not_mem_labels_insertGrouped hl hll)]
      have hbeq : (l' == l) = false := by
        cases hb : l' == l
        · rfl
        · exact absurd (beq_iff_eq.mp hb).symm hll
      simp [hbeq]

/-- The `defaultdict(list)` loop implements the spec's encounter-order
grouping. -/
theorem groupPairs_eq_spec :
    ∀ (n : Nat) (ps : List (Str × Str)), ps.length ≤ n →
      groupPairs ps = groupLinksSpec ps := by
  intro n
  induction n with
  | zero =>
    intro ps hle
    have : ps = [] := List.length_eq_zero.mp (Nat.le_zero.mp hle)
    subst this
    rfl
  | succ n ih =>
    intro ps hle
    match ps with
    | [] => rfl
    | (l, k) :: rest =>
      unfold groupPairs
      rw [List.foldl_cons]
      show rest.foldl _ (insertGrouped [] l k) = _
      rw [show insertGrouped [] l k = [(l, [k])] from rfl,
        foldl_insertGrouped_extract rest [] l [k] (by simp),
        groupLinksSpec_cons]
      have hlen : (rest.filter (fun p => !(p.1 == l))).length ≤ n := by
        have := List.length_filter_le (fun p => !(p.1 == l)) rest
        simp only [List.length_cons] at hle
        omega
      rw [show (rest.filter (fun p => !(p.1 == l))).foldl
            (fun a p => insertGrouped a p.1 p.2) []
          = groupPairs (rest.filter (fun p => !(p.1 == l))) from rfl,
        ih _ hlen]
      rfl

/-- C4: the links block synthesized by `get_issue` groups links by inward
label in encounter order, renders each group as
`label ++ ": " ++ keys comma-joined in encounter order`, and joins the
group lines with newlines (after the separating newline that attaches the
block to its header). -/
theorem C4_links_block_grouping (links : List JiraIssueLink)
    (h : links ≠ []) :
    issue_links links
      = '\n' :: joinStr ['\n']
          ((groupLinksSpec (links.map (fun l => (linkLabel l, linkKey l)))).map
            (fun g => g.1 ++ ':' :: ' ' :: joinStr [',', ' '] g.2)) := by
  have hg : groupedLinks links
      = groupLinksSpec (links.map (fun l => (linkLabel l, linkKey l))) := by
    rw [← groupPairs_eq_spec (links.map (fun l => (linkLabel l, linkKey l))).length
        _ (le_refl _)]
    unfold groupedLinks groupPairs
    rw [List.foldl_map]
  unfold issue_links formatted_links
  rw [if_pos (List.length_pos.mpr h), hg]

/-- The testable example: two links labelled `blocks` (targets A, B) and
one labelled `relates to` (target C). -/
def exampleLinks : List JiraIssueLink :=
  [⟨some ⟨some (strLit "blocks")⟩, some ⟨some (strLit "A")⟩⟩,
   ⟨some ⟨some (strLit "blocks")⟩, some ⟨some (strLit "B")⟩⟩,
   ⟨some ⟨some (strLit "relates to")⟩, some ⟨some (strLit "C")⟩⟩]

/-- C4 witness: the example yields exactly two grouped lines, in encounter
order with comma-joined targets. -/
theorem C4_witness :
    issue_links exampleLinks = strLit "\nblocks: A, B\nrelates to: C"
    ∧ (formatted_links exampleLinks).length = 2 := by
  constructor
  · rw [C4_links_block_grouping exampleLinks (by decide)]
    decide
  · decide

/-! ## C3 — date normalization -/

theorem plus_beq_digit {c : Char} (hc : c.isDigit = true) : ('+' == c) = false :=
  beq_false_of_notdigit (by decide) hc

theorem minus_beq_digit {c : Char} (hc : c.isDigit = true) : ('-' == c) = false :=
  beq_false_of_notdigit (by decide) hc

theorem z_beq_digit {c : Char} (hc : c.isDigit = true) : ('Z' == c) = false :=
  beq_false_of_notdigit (by decide) hc

/-- The 19-character `YYYY-MM-DDTHH:MM:SS` core of a timestamp, with its
digit positions abstract. -/
def tsCore (y1 y2 y3 y4 m1 m2 d1 d2 h1 h2 n1 n2 s1 s2 : Char) : Str :=
  [y1, y2, y3, y4, '-', m1, m2, '-', d1, d2, 'T', h1, h2, ':', n1, n2, ':', s1, s2]

/-- The four timezone suffix forms named by the spec: `Z`, `+0000`,
`-0000` and a generic 4-digit signed offset (the middle two are `offset`
instances). -/
inductive TzSuffix where
  | z : TzSuffix
  | offset (sg o1 o2 o3 o4 : Char) : TzSuffix

def TzSuffix.render : TzSuffix → Str
  | .z => ['Z']
  | .offset sg o1 o2 o3 o4 => [sg, o1, o2, o3, o4]

/-- All fourteen core positions hold digit characters. -/
abbrev digitsCore (y1 y2 y3 y4 m1 m2 d1 d2 h1 h2 n1 n2 s1 s2 : Char) : Prop :=
  y1.isDigit = true ∧ y2.isDigit = true ∧ y3.isDigit = true ∧ y4.isDigit = true
    ∧ m1.isDigit = true ∧ m2.isDigit = true ∧ d1.isDigit = true ∧ d2.isDigit = true
    ∧ h1.isDigit = true ∧ h2.isDigit = true ∧ n1.isDigit = true ∧ n2.isDigit = true
    ∧ s1.isDigit = true ∧ s2.isDigit = true

/-- The calendar/clock ranges `datetime` accepts for the core fields. -/
abbrev coreRanges (y1 y2 y3 y4 m1 m2 d1 d2 h1 h2 n1 n2 s1 s2 : Char) : Prop :=
  1 ≤ toNum4 y1 y2 y3 y4
    ∧ 1 ≤ toNum2 m1 m2 ∧ toNum2 m1 m2 ≤ 12
    ∧ 1 ≤ toNum2 d1 d2
    ∧ toNum2 d1 d2 ≤ daysInMonth (toNum4 y1 y2 y3 y4) (toNum2 m1 m2)
    ∧ toNum2 h1 h2 ≤ 23 ∧ toNum2 n1 n2 ≤ 59 ∧ toNum2 s1 s2 ≤ 59

/-- A valid timestamp core: digit characters in a valid calendar range. -/
abbrev validCore (y1 y2 y3 y4 m1 m2 d1 d2 h1 h2 n1 n2 s1 s2 : Char) : Prop :=
  digitsCore y1 y2 y3 y4 m1 m2 d1 d2 h1 h2 n1 n2 s1 s2
    ∧ coreRanges y1 y2 y3 y4 m1 m2 d1 d2 h1 h2 n1 n2 s1 s2

/-- A valid suffix: `Z`, or a signed 4-digit offset within a day. -/
abbrev validSuffix : TzSuffix → Prop
  | .z => True
  | .offset sg o1 o2 o3 o4 =>
    (sg = '+' ∨ sg = '-') ∧ o1.isDigit = true ∧ o2.isDigit = true
      ∧ o3.isDigit = true ∧ o4.isDigit = true
      ∧ toNum2 o1 o2 ≤ 23 ∧ toNum2 o3 o4 ≤ 59

/-- No occurrence of `+0000` begins inside the timestamp core. -/
theorem core_contains_plus {y1 y2 y3 y4 m1 m2 d1 d2 h1 h2 n1 n2 s1 s2 : Char}
    (hdig : digitsCore y1 y2 y3 y4 m1 m2 d1 d2 h1 h2 n1 n2 s1 s2) (t : Str) :
    containsSub (tsCore y1 y2 y3 y4 m1 m2 d1 d2 h1 h2 n1 n2 s1 s2 ++ t) plus0000
      = containsSub t plus0000 := by
  obtain ⟨a1, a2, a3, a4, a5, a6, a7, a8, a9, a10, a11, a12, a13, a14⟩ := hdig
  simp [tsCore, containsSub, startsWith, plus0000, plus_beq_digit,
    a1, a2, a3, a4, a5, a6, a7, a8, a9, a10, a11, a12, a13, a14]

/-- No occurrence of `-0000` begins inside the timestamp core: the only
dashes are followed by the month and day fields, which are cut off by the
following dash or `T` before four zeros can accumulate. -/
theorem core_contains_minus {y1 y2 y3 y4 m1 m2 d1 d2 h1 h2 n1 n2 s1 s2 : Char}
    (hdig : digitsCore y1 y2 y3 y4 m1 m2 d1 d2 h1 h2 n1 n2 s1 s2) (t : Str) :
    containsSub (tsCore y1 y2 y3 y4 m1 m2 d1 d2 h1 h2 n1 n2 s1 s2 ++ t) minus0000
      = containsSub t minus0000 := by
  obtain ⟨a1, a2, a3, a4, a5, a6, a7, a8, a9, a10, a11, a12, a13, a14⟩ := hdig
  simp [tsCore, containsSub, startsWith, minus0000, minus_beq_digit,
    a1, a2, a3, a4, a5, a6, a7, a8, a9, a10, a11, a12, a13, a14]

/-- Replacing `+0000` leaves the timestamp core untouched. -/
theorem core_repl_plus {y1 y2 y3 y4 m1 m2 d1 d2 h1 h2 n1 n2 s1 s2 : Char}
    (hdig : digitsCore y1 y2 y3 y4 m1 m2 d1 d2 h1 h2 n1 n2 s1 s2)
    (t rep : Str) :
    pyReplace (tsCore y1 y2 y3 y4 m1 m2 d1 d2 h1 h2 n1 n2 s1 s2 ++ t)
        plus0000 rep
      = tsCore y1 y2 y3 y4 m1 m2 d1 d2 h1 h2 n1 n2 s1 s2
          ++ pyReplace t plus0000 rep := by
  obtain ⟨a1, a2, a3, a4, a5, a6, a7, a8, a9, a10, a11, a12, a13, a14⟩ := hdig
  simp [tsCore, pyReplace_neg, startsWith, plus0000, plus_beq_digit,
    a1, a2, a3, a4, a5, a6, a7, a8, a9, a10, a11, a12, a13, a14]

/-- Replacing `-0000` leaves the timestamp core untouched. -/
theorem core_repl_minus {y1 y2 y3 y4 m1 m2 d1 d2 h1 h2 n1 n2 s1 s2 : Char}
    (hdig : digitsCore y1 y2 y3 y4 m1 m2 d1 d2 h1 h2 n1 n2 s1 s2)
    (t rep : Str) :
    pyReplace (tsCore y1 y2 y3 y4 m1 m2 d1 d2 h1 h2 n1 n2 s1 s2 ++ t)
        minus0000 rep
      = tsCore y1 y2 y3 y4 m1 m2 d1 d2 h1 h2 n1 n2 s1 s2
          ++ pyReplace t minus0000 rep := by
  obtain ⟨a1, a2, a3, a4, a5, a6, a7, a8, a9, a10, a11, a12, a13, a14⟩ := hdig
  simp [tsCore, pyReplace_neg, startsWith, minus0000, minus_beq_digit,
    a1, a2, a3, a4, a5, a6, a7, a8, a9, a10, a11, a12, a13, a14]

/-- Replacing `Z` leaves the timestamp core untouched. -/
theorem core_repl_z {y1 y2 y3 y4 m1 m2 d1 d2 h1 h2 n1 n2 s1 s2 : Char}
    (hdig : digitsCore y1 y2 y3 y4 m1 m2 d1 d2 h1 h2 n1 n2 s1 s2)
    (t rep : Str) :
    pyReplace (tsCore y1 y2 y3 y4 m1 m2 d1 d2 h1 h2 n1 n2 s1 s2 ++ t) zStr rep
      = tsCore y1 y2 y3 y4 m1 m2 d1 d2 h1 h2 n1 n2 s1 s2
          ++ pyReplace t zStr rep := by
  obtain ⟨a1, a2, a3, a4, a5, a6, a7, a8, a9, a10, a11, a12, a13, a14⟩ := hdig
  simp [tsCore, pyReplace_neg, startsWith, zStr, z_beq_digit,
    a1, a2, a3, a4, a5, a6, a7, a8, a9, a10, a11, a12, a13, a14]

/-- A signed non-zero 4-digit offset contains neither `+0000` nor
`-0000`. -/
theorem offset_scan {sg o1 o2 o3 o4 : Char} (hsign : sg = '+' ∨ sg = '-')
    (h1 : o1.isDigit = true) (h2 : o2.isDigit = true)
    (h3 : o3.isDigit = true) (h4 : o4.isDigit = true)
    (hnz : ¬(o1 = '0' ∧ o2 = '0' ∧ o3 = '0' ∧ o4 = '0')) :
    containsSub [sg, o1, o2, o3, o4] plus0000 = false
      ∧ containsSub [sg, o1, o2, o3, o4] minus0000 = false := by
  have hfalse : ('0' == o1) = false ∨ ('0' == o2) = false
      ∨ ('0' == o3) = false ∨ ('0' == o4) = false := by
    by_contra hall
    push_neg at hall
    obtain ⟨f1, f2, f3, f4⟩ := hall
    have g1 : o1 = '0' := by
      cases hb : ('0' == o1) with
      | false => exact absurd hb f1
      | true => exact (beq_iff_eq.mp hb).symm
    have g2 : o2 = '0' := by
      cases hb : ('0' == o2) with
      | false => exact absurd hb f2
      | true => exact (beq_iff_eq.mp hb).symm
    have g3 : o3 = '0' := by
      cases hb : ('0' == o3) with
      | false => exact absurd hb f3
      | true => exact (beq_iff_eq.mp hb).symm
    have g4 : o4 = '0' := by
      cases hb : ('0' == o4) with
      | false => exact absurd hb f4
      | true => exact (beq_iff_eq.mp hb).symm
    exact hnz ⟨g1, g2, g3, g4⟩
  rcases hsign with rfl | rfl
  · constructor
    · rcases hfalse with hf | hf | hf | hf <;>
        simp [containsSub, startsWith, plus0000, plus_beq_digit,
          h1, h2, h3, h4, hf]
    · simp [containsSub, startsWith, minus0000, minus_beq_digit,
        h1, h2, h3, h4]
  · constructor
    · simp [containsSub, startsWith, plus0000, plus_beq_digit, h1, h2, h3, h4]
    · rcases hfalse with hf | hf | hf | hf <;>
        simp [containsSub, startsWith, minus0000, minus_beq_digit,
          h1, h2, h3, h4, hf]

/-- The colon-separated offset contains no `Z` to replace. -/
theorem z_repl_offset {sg o1 o2 o3 o4 : Char} (hsign : sg = '+' ∨ sg = '-')
    (h1 : o1.isDigit = true) (h2 : o2.isDigit = true)
    (h3 : o3.isDigit = true) (h4 : o4.isDigit = true) :
    pyReplace [sg, o1, o2, ':', o3, o4] zStr plusColon00
      = [sg, o1, o2, ':', o3, o4] := by
  rcases hsign with rfl | rfl <;>
    simp [pyReplace_neg, pyReplace_nil, startsWith, zStr, z_beq_digit,
      h1, h2, h3, h4]

/-- `parseTzTail` on a well-formed colon-separated offset. -/
theorem parseTzTail_offset {sg o1 o2 o3 o4 : Char}
    (hsign : sg = '+' ∨ sg = '-')
    (h1 : o1.isDigit = true) (h2 : o2.isDigit = true)
    (h3 : o3.isDigit = true) (h4 : o4.isDigit = true)
    (hh : toNum2 o1 o2 ≤ 23) (hm : toNum2 o3 o4 ≤ 59) :
    parseTzTail [sg, o1, o2, ':', o3, o4]
      = some (some (sg == '+', toNum2 o1 o2, toNum2 o3 o4)) := by
  simp only [parseTzTail]
  rw [if_pos ⟨hsign, h1, h2, h3, h4, hh, hm⟩]

/-- `fromisoformat` on a valid core followed by a parseable offset tail. -/
theorem fromiso_core {y1 y2 y3 y4 m1 m2 d1 d2 h1 h2 n1 n2 s1 s2 : Char}
    (tail : Str)
    (hdig : digitsCore y1 y2 y3 y4 m1 m2 d1 d2 h1 h2 n1 n2 s1 s2)
    (hrange : coreRanges y1 y2 y3 y4 m1 m2 d1 d2 h1 h2 n1 n2 s1 s2)
    (tz : Option (Bool × Nat × Nat)) (htz : parseTzTail tail = some tz) :
    fromisoformat (tsCore y1 y2 y3 y4 m1 m2 d1 d2 h1 h2 n1 n2 s1 s2 ++ tail)
      = some ⟨toNum4 y1 y2 y3 y4, toNum2 m1 m2, toNum2 d1 d2,
          toNum2 h1 h2, toNum2 n1 n2, toNum2 s1 s2, tz⟩ := by
  have hdigC := hdig
  obtain ⟨a1, a2, a3, a4, a5, a6, a7, a8, a9, a10, a11, a12, a13, a14⟩ := hdigC
  have hr : 1 ≤ toNum4 y1 y2 y3 y4
      ∧ 1 ≤ toNum2 m1 m2 ∧ toNum2 m1 m2 ≤ 12
      ∧ 1 ≤ toNum2 d1 d2
      ∧ toNum2 d1 d2 ≤ daysInMonth (toNum4 y1 y2 y3 y4) (toNum2 m1 m2)
      ∧ toNum2 h1 h2 ≤ 23 ∧ toNum2 n1 n2 ≤ 59 ∧ toNum2 s1 s2 ≤ 59 := hrange
  show fromisoformat
      (y1 :: y2 :: y3 :: y4 :: '-' :: m1 :: m2 :: '-' :: d1 :: d2 :: 'T' ::
        h1 :: h2 :: ':' :: n1 :: n2 :: ':' :: s1 :: s2 :: tail) = _
  simp only [fromisoformat]
  rw [if_pos (by exact ⟨a1, a2, a3, a4, a5, a6, a7, a8, a9, a10, a11, a12,
    a13, a14, by simp⟩)]
  simp only [htz, if_pos hr]

/-- Rendering the parsed fields recovers the original date digits. -/
theorem strftime_core {y1 y2 y3 y4 m1 m2 d1 d2 : Char}
    (hy1 : y1.isDigit = true) (hy2 : y2.isDigit = true)
    (hy3 : y3.isDigit = true) (hy4 : y4.isDigit = true)
    (hm1 : m1.isDigit = true) (hm2 : m2.isDigit = true)
    (hd1 : d1.isDigit = true) (hd2 : d2.isDigit = true)
    (h mi sec : Nat) (tz : Option (Bool × Nat × Nat)) :
    strftimeYmd ⟨toNum4 y1 y2 y3 y4, toNum2 m1 m2, toNum2 d1 d2, h, mi, sec, tz⟩
      = [y1, y2, y3, y4, '-', m1, m2, '-', d1, d2] := by
  show pad4 (toNum4 y1 y2 y3 y4) ++ '-' :: pad2 (toNum2 m1 m2)
      ++ '-' :: pad2 (toNum2 d1 d2) = _
  rw [pad4_toNum4 hy1 hy2 hy3 hy4, pad2_toNum2 hm1 hm2, pad2_toNum2 hd1 hd2]
  rfl

/-- Main evaluation: on every timestamp of the spec's four forms,
`_parse_date` returns exactly the written date digits, independent of the
suffix. -/
theorem parse_date_valid_forms
    (y1 y2 y3 y4 m1 m2 d1 d2 h1 h2 n1 n2 s1 s2 : Char) (suf : TzSuffix)
    (hv : validCore y1 y2 y3 y4 m1 m2 d1 d2 h1 h2 n1 n2 s1 s2)
    (hs : validSuffix suf) :
    parse_date
        (tsCore y1 y2 y3 y4 m1 m2 d1 d2 h1 h2 n1 n2 s1 s2 ++ suf.render)
      = [y1, y2, y3, y4, '-', m1, m2, '-', d1, d2] := by
  obtain ⟨hdig, hrange⟩ := hv
  have hdigC := hdig
  obtain ⟨a1, a2, a3, a4, a5, a6, a7, a8, a9, a10, a11, a12, a13, a14⟩ := hdigC
  cases suf with
  | z =>
    simp only [TzSuffix.render]
    have hc3 : ¬(5 ≤ (tsCore y1 y2 y3 y4 m1 m2 d1 d2 h1 h2 n1 n2 s1 s2
          ++ ['Z']).length
        ∧ (charFromEnd (tsCore y1 y2 y3 y4 m1 m2 d1 d2 h1 h2 n1 n2 s1 s2
              ++ ['Z']) 5 = '+'
            ∨ charFromEnd (tsCore y1 y2 y3 y4 m1 m2 d1 d2 h1 h2 n1 n2 s1 s2
              ++ ['Z']) 5 = '-')
        ∧ ((lastN (tsCore y1 y2 y3 y4 m1 m2 d1 d2 h1 h2 n1 n2 s1 s2
              ++ ['Z']) 4).all Char.isDigit) = true) := by
      rintro ⟨-, hpm, -⟩
      rcases hpm with h | h
      · exact ne_of_digit '+' (by decide) a12 h
      · exact ne_of_digit '-' (by decide) a12 h
    have hfix : fixTimezone
        (tsCore y1 y2 y3 y4 m1 m2 d1 d2 h1 h2 n1 n2 s1 s2 ++ ['Z'])
        = tsCore y1 y2 y3 y4 m1 m2 d1 d2 h1 h2 n1 n2 s1 s2 ++ ['Z'] := by
      unfold fixTimezone
      rw [core_contains_plus hdig, core_contains_minus hdig,
        if_neg (by decide : ¬(containsSub ['Z'] plus0000 = true)),
        if_neg (by decide : ¬(containsSub ['Z'] minus0000 = true)),
        if_neg hc3]
    unfold parse_date
    rw [if_neg (show tsCore y1 y2 y3 y4 m1 m2 d1 d2 h1 h2 n1 n2 s1 s2
        ++ ['Z'] ≠ [] by simp [tsCore]), hfix, core_repl_z hdig,
      (by decide : pyReplace ['Z'] zStr plusColon00 = plusColon00),
      fromiso_core plusColon00 hdig hrange (some (true, 0, 0)) (by decide)]
    exact strftime_core a1 a2 a3 a4 a5 a6 a7 a8 _ _ _ _
  | offset sg o1 o2 o3 o4 =>
    obtain ⟨hsign, ho1, ho2, ho3, ho4, hoh, hom⟩ := hs
    simp only [TzSuffix.render]
    by_cases hzero : o1 = '0' ∧ o2 = '0' ∧ o3 = '0' ∧ o4 = '0'
    · obtain ⟨rfl, rfl, rfl, rfl⟩ := hzero
      rcases hsign with rfl | rfl
      · -- the +0000 form
        have hfix : fixTimezone
            (tsCore y1 y2 y3 y4 m1 m2 d1 d2 h1 h2 n1 n2 s1 s2
              ++ ['+', '0', '0', '0', '0'])
            = tsCore y1 y2 y3 y4 m1 m2 d1 d2 h1 h2 n1 n2 s1 s2
                ++ plusColon00 := by
          unfold fixTimezone
          rw [core_contains_plus hdig,
            if_pos (by decide : containsSub ['+', '0', '0', '0', '0']
              plus0000 = true),
            core_repl_plus hdig,
            (by decide : pyReplace ['+', '0', '0', '0', '0'] plus0000
              plusColon00 = plusColon00)]
        unfold parse_date
        rw [if_neg (show tsCore y1 y2 y3 y4 m1 m2 d1 d2 h1 h2 n1 n2 s1 s2
            ++ ['+', '0', '0', '0', '0'] ≠ [] by simp [tsCore]), hfix,
          core_repl_z hdig,
          (by decide : pyReplace plusColon00 zStr plusColon00 = plusColon00),
          fromiso_core plusColon00 hdig hrange (some (true, 0, 0)) (by decide)]
        exact strftime_core a1 a2 a3 a4 a5 a6 a7 a8 _ _ _ _
      · -- the -0000 form
        have hfix : fixTimezone
            (tsCore y1 y2 y3 y4 m1 m2 d1 d2 h1 h2 n1 n2 s1 s2
              ++ ['-', '0', '0', '0', '0'])
            = tsCore y1 y2 y3 y4 m1 m2 d1 d2 h1 h2 n1 n2 s1 s2
                ++ plusColon00 := by
          unfold fixTimezone
          rw [core_contains_plus hdig, core_contains_minus hdig,
            if_neg (by decide : ¬(containsSub ['-', '0', '0', '0', '0']
              plus0000 = true)),
            if_pos (by decide : containsSub ['-', '0', '0', '0', '0']
              minus0000 = true),
            core_repl_minus hdig,
            (by decide : pyReplace ['-', '0', '0', '0', '0'] minus0000
              plusColon00 = plusColon00)]
        unfold parse_date
        rw [if_neg (show tsCore y1 y2 y3 y4 m1 m2 d1 d2 h1 h2 n1 n2 s1 s2
            ++ ['-', '0', '0', '0', '0'] ≠ [] by simp [tsCore]), hfix,
          core_repl_z hdig,
          (by decide : pyReplace plusColon00 zStr plusColon00 = plusColon00),
          fromiso_core plusColon00 hdig hrange (some (true, 0, 0)) (by decide)]
        exact strftime_core a1 a2 a3 a4 a5 a6 a7 a8 _ _ _ _
    · -- a genuine nonzero offset: the colon-insertion branch
      have hscan := offset_scan hsign ho1 ho2 ho3 ho4 hzero
      have hfix : fixTimezone
          (tsCore y1 y2 y3 y4 m1 m2 d1 d2 h1 h2 n1 n2 s1 s2
            ++ [sg, o1, o2, o3, o4])
          = tsCore y1 y2 y3 y4 m1 m2 d1 d2 h1 h2 n1 n2 s1 s2
              ++ [sg, o1, o2, ':', o3, o4] := by
        unfold fixTimezone
        rw [core_contains_plus hdig, core_contains_minus hdig, hscan.1,
          hscan.2, if_neg (by decide : ¬((false : Bool) = true)),
          if_neg (by decide : ¬((false : Bool) = true)),
          if_pos (⟨(by decide : (5 : Nat) ≤ 24), hsign,
            (by simp [ho1, ho2, ho3, ho4] :
              (([o1, o2, o3, o4].all Char.isDigit) = true))⟩ :
            5 ≤ (tsCore y1 y2 y3 y4 m1 m2 d1 d2 h1 h2 n1 n2 s1 s2
                ++ [sg, o1, o2, o3, o4]).length
            ∧ (charFromEnd (tsCore y1 y2 y3 y4 m1 m2 d1 d2 h1 h2 n1 n2 s1 s2
                  ++ [sg, o1, o2, o3, o4]) 5 = '+'
                ∨ charFromEnd (tsCore y1 y2 y3 y4 m1 m2 d1 d2 h1 h2 n1 n2 s1 s2
                  ++ [sg, o1, o2, o3, o4]) 5 = '-')
            ∧ ((lastN (tsCore y1 y2 y3 y4 m1 m2 d1 d2 h1 h2 n1 n2 s1 s2
                  ++ [sg, o1, o2, o3, o4]) 4).all Char.isDigit) = true)]
        rfl
      unfold parse_date
      rw [if_neg (show tsCore y1 y2 y3 y4 m1 m2 d1 d2 h1 h2 n1 n2 s1 s2
          ++ [sg, o1, o2, o3, o4] ≠ [] by simp [tsCore]), hfix,
        core_repl_z hdig, z_repl_offset hsign ho1 ho2 ho3 ho4,
        fromiso_core [sg, o1, o2, ':', o3, o4] hdig hrange
          (some (sg == '+', toNum2 o1 o2, toNum2 o3 o4))
          (parseTzTail_offset hsign ho1 ho2 ho3 ho4 hoh hom)]
      exact strftime_core a1 a2 a3 a4 a5 a6 a7 a8 _ _ _ _

/-- C3 counterexample: (i) `2024-01-05T23:00:00+0000` and
`2024-01-06T08:00:00+0900` denote the same instant yet normalize to
different outputs, because `strftime` renders the as-written local fields
with no UTC conversion; (ii) on `garbage+0300` parsing fails after offset
normalization and the parser returns the *normalized* string
`garbage+03:00`, not the original raw string. -/
theorem C3_counterexample_parse_date :
    parse_date (strLit "2024-01-05T23:00:00+0000")
        ≠ parse_date (strLit "2024-01-06T08:00:00+0900")
    ∧ parse_date (strLit "garbage+0300") = strLit "garbage+03:00"
    ∧ strLit "garbage+03:00" ≠ strLit "garbage+0300" := by
  refine ⟨by decide, by decide, by decide⟩

/-- C3 (amended): for every timestamp of the four spec forms the parser
returns the valid `YYYY-MM-DD` rendering of the *written* date fields —
so the output is independent of the suffix, and in particular the
`+0000` and `Z` spellings of one instant agree, though equal instants
written under different offsets need not; and whenever parsing fails
after offset normalization the parser returns the offset-normalized
string (the original only when no offset rewrite applied) and never
raises. -/
theorem C3_date_normalization_amended :
    (∀ (y1 y2 y3 y4 m1 m2 d1 d2 h1 h2 n1 n2 s1 s2 : Char) (suf : TzSuffix),
        validCore y1 y2 y3 y4 m1 m2 d1 d2 h1 h2 n1 n2 s1 s2 →
        validSuffix suf →
        parse_date
            (tsCore y1 y2 y3 y4 m1 m2 d1 d2 h1 h2 n1 n2 s1 s2 ++ suf.render)
          = [y1, y2, y3, y4, '-', m1, m2, '-', d1, d2])
    ∧ (∀ s : Str, s ≠ [] →
        fromisoformat (pyReplace (fixTimezone s) zStr plusColon00) = none →
        parse_date s = fixTimezone s) := by
  constructor
  · exact parse_date_valid_forms
  · intro s hne hfail
    unfold parse_date
    rw [if_neg hne, hfail]

/-- C3 witness: the `Z` and `+0000` spellings of one instant both
normalize to `2024-01-05`. -/
theorem C3_witness :
    parse_date (strLit "2024-01-05T10:00:00Z") = strLit "2024-01-05"
    ∧ parse_date (strLit "2024-01-05T10:00:00+0000") = strLit "2024-01-05" := by
  constructor
  · exact C3_date_normalization_amended.1 '2' '0' '2' '4' '0' '1' '0' '5'
      '1' '0' '0' '0' '0' '0' .z (by decide) (by decide)
  · exact C3_date_normalization_amended.1 '2' '0' '2' '4' '0' '1' '0' '5'
      '1' '0' '0' '0' '0' '0' (.offset '+' '0' '0' '0' '0') (by decide)
      (by decide)

end Mcp
